import Mathlib

/-!
A verification development for the widget message dispatcher
(`src/notebooks/controllers/ipywidgets/message/ipyWidgetMessageDispatcher.ts`).

The dispatcher mediates between a Jupyter kernel socket and a sandboxed
render surface.  State that the TypeScript class keeps in instance fields is
modelled as a `State` record; each method becomes a pure function from the
old state (plus the method's inputs and the responses of external
collaborators) to the new state.  JavaScript `Deferred` promises are
modelled by keeping the set of outstanding ids together with an append-only
log of resolutions: the code under scrutiny never calls `reject` on any
deferred, so a resolution log entry always means `resolve`.

External collaborators that are not part of the repository's `src/` tree
(the JSON / wire (de)serializers, the `shouldMessageBeMirroredWithRenderer`
predicate, the kernel connection itself) are passed in as explicit
parameters: a raw frame carries its own deserialization result, mirroring
the fact that `JSON.parse` / `deserialize` either return a message or throw.
-/

namespace IPyWidgetMessageDispatcher

/-- Character-list version of JavaScript `String.prototype.startsWith`. -/
def charsStartWith : List Char → List Char → Bool
  | [], _ => true
  | _ :: _, [] => false
  | a :: as, b :: bs => a == b && charsStartWith as bs

/-- Character-list version of JavaScript `String.prototype.includes`. -/
def charsInclude (needle : List Char) : List Char → Bool
  | [] => charsStartWith needle []
  | b :: bs => charsStartWith needle (b :: bs) || charsInclude needle bs

/-- JavaScript `s.includes(sub)` (substring test). -/
def strIncludes (s sub : String) : Bool :=
  charsInclude sub.data s.data

/-- Modelled from the spec: the widget MIME marker `WIDGET_MIMETYPE`
(§4.1 "contains the widget MIME marker"); the constant lives in
`platform/common/constants`, outside `src/`. -/
def WIDGET_MIMETYPE : String := "application/vnd.jupyter.widget-view+json"

/-- Modelled from the spec: the reserved default comm-target name
(`Identifiers.DefaultCommTarget`, §4.5 "the reserved default target");
the constant lives outside `src/`.  The dispatcher constructor pre-registers
the literal `jupyter.widget` (source line 95) and the drain loop skips the
reserved default, so the two coincide. -/
def DefaultCommTarget : String := "jupyter.widget"

/-- A kernel-message binary buffer: either a typed `DataView` over a backing
`ArrayBuffer`, or a plain `ArrayBuffer` (source lines 463-473). -/
inductive KBuffer where
  | dataView (backing : List Nat)
  | arrayBuffer (bytes : List Nat)
deriving DecidableEq, BEq

/-- `buffer instanceof DataView ? buffer.buffer : buffer`
(source lines 464-472): a `DataView` is replaced by its backing buffer. -/
def normalizeBuffer : KBuffer → KBuffer
  | .dataView b => .arrayBuffer b
  | .arrayBuffer b => .arrayBuffer b

/-- The fields of a deserialized Jupyter kernel message that the dispatcher
inspects.  Optional JavaScript accesses (`content?.comm_id`,
`content?.data?.method`, ...) become `Option` fields; `hasData` records
whether `message.content.data` is truthy (checked at source line 414). -/
structure KernelMsg where
  channel : String
  msgType : String
  msgId : String
  parentMsgId : String
  commId : Option String
  method : Option String
  modelModule : Option String
  modelName : Option String
  hasData : Bool
  hasWidgetMimeData : Bool
  targetName : Option String
  buffers : List KBuffer
deriving DecidableEq, BEq

/-- A raw wire frame (`WebSocketData` / raw payload): either a string or a
binary blob.  Deserialization is performed by an external collaborator
(`JSON.parse` or `@jupyterlab` `deserialize`), so the frame carries its own
deserialization outcome: `.error` models a throwing parse. -/
inductive RawData where
  | str (raw : String) (parsed : Except Unit KernelMsg)
  | bin (parsed : Except Unit KernelMsg)

/-- The deserialization outcome of a frame. -/
def RawData.parsed : RawData → Except Unit KernelMsg
  | .str _ p => p
  | .bin p => p

/-- Messages posted to the render surface via `raisePostMessage`
(the `IPyWidgetMessages.*` cases used by the dispatcher). -/
inductive PostMsg where
  | widgetMsg (id : String)
  | binaryMsg (id : String)
  | mirrorExecute (id : String)
  | restartNotice
  | kernelOptions
  | extensionOperationHandled (id : String)
  | messageHookCall (requestId parentId : String)
deriving DecidableEq, BEq

/-- JavaScript `Set.add` on a list kept duplicate-free in insertion order. -/
def setInsert {α : Type} [BEq α] (l : List α) (a : α) : List α :=
  if l.contains a then l else l ++ [a]

/-- `Map.delete k` on an association list. -/
def assocErase (l : List (String × String)) (k : String) : List (String × String) :=
  l.filter (fun p => !(p.1 == k))

/-- `Map.get k` on an association list. -/
def assocGet (l : List (String × String)) (k : String) : Option String :=
  (l.find? (fun p => p.1 == k)).map (·.2)

/-- `Map.set k v` on an association list. -/
def assocSet (l : List (String × String)) (k v : String) : List (String × String) :=
  assocErase l k ++ [(k, v)]

/-- The dispatcher's instance fields (source lines 51-86), together with
append-only observation logs.  `resolvedWaits` / `resolvedHookRequests` /
`resolvedGates` record deferred resolutions (the code never rejects a
deferred); `posted` records `raisePostMessage` calls; `kernelSent` records
messages handed to `sendControlMessage` / `sendShellMessage` (the `Bool` is
`true` for the control channel); `kernelRegisterCalls` records calls to the
kernel connection's `registerCommTarget`; `errorsLogged` counts
`logger.error` calls from catch blocks. -/
structure State where
  pendingMessages : List RawData
  waitingMessageIds : List String
  resolvedWaits : List String
  messageHookRequests : List String
  resolvedHookRequests : List (String × Bool)
  messageHooks : List String
  pendingHookRemovals : List (String × String)
  outputWidgetIds : List (Option String)
  fullHandleMessage : Option String
  resolvedGates : List String
  isUsingIPyWidgets : Bool
  commTargetsRegistered : List String
  pendingTargetNames : List String
  kernelWasConnectedAtLeastOnce : Bool
  disposed : Bool
  disposables : Nat
  posted : List PostMsg
  kernelSent : List (Bool × KernelMsg)
  kernelRegisterCalls : List String
  displayed : List String
  errorsLogged : Nat

/-- The state right after the constructor ran (source lines 88-111): the
default comm target is pre-registered as pending, one subscription
(`onDidStartKernel`) is held in `disposables`, everything else is empty. -/
def initState : State where
  pendingMessages := []
  waitingMessageIds := []
  resolvedWaits := []
  messageHookRequests := []
  resolvedHookRequests := []
  messageHooks := []
  pendingHookRemovals := []
  outputWidgetIds := []
  fullHandleMessage := none
  resolvedGates := []
  isUsingIPyWidgets := false
  commTargetsRegistered := []
  pendingTargetNames := ["jupyter.widget"]
  kernelWasConnectedAtLeastOnce := false
  disposed := false
  disposables := 1
  posted := []
  kernelSent := []
  kernelRegisterCalls := []
  displayed := []
  errorsLogged := 0

/-- `dispose()` (source lines 112-118): set the disposed flag and dispose
every held subscription.  Nothing else: no deferred is resolved here. -/
def dispose (s : State) : State :=
  { s with disposed := true, disposables := 0 }

/-- `handleMessageHookResponse` (source lines 614-622): look up the waiter
by `requestId`; if present, remove it and resolve it — to `true` whenever
the reported message type contains `comm`, otherwise to the reported
`result`; if absent, do nothing. -/
def handleMessageHookResponse (s : State) (requestId msgType : String) (result : Bool) :
    State :=
  if s.messageHookRequests.contains requestId then
    { s with
      messageHookRequests := s.messageHookRequests.erase requestId
      resolvedHookRequests :=
        s.resolvedHookRequests ++ [(requestId, if strIncludes msgType "comm" then true else result)] }
  else s

/-- `onKernelSocketResponse` (source lines 439-445): resolve and drop the
waiting entry for `id`, if any. -/
def onKernelSocketResponse (s : State) (id : String) : State :=
  if s.waitingMessageIds.contains id then
    { s with
      waitingMessageIds := s.waitingMessageIds.erase id
      resolvedWaits := s.resolvedWaits ++ [id] }
  else s

/-- `iopubMessageHandled` (source lines 359-366): if the full-handle gate is
open and its id matches the reported id, resolve the gate's deferred and
clear the slot; otherwise ignore the report. -/
def iopubMessageHandled (s : State) (msgId : String) : State :=
  match s.fullHandleMessage with
  | some gid =>
      if gid == msgId then
        { s with fullHandleMessage := none, resolvedGates := s.resolvedGates ++ [gid] }
      else s
  | none => s

/-- `messageNeedsFullHandle` (source lines 348-356): an iopub `comm_msg`
with `content.data.method === 'update'` whose `content.comm_id` is a
tracked Output-widget comm. -/
def messageNeedsFullHandle (outputWidgetIds : List (Option String)) (m : KernelMsg) : Bool :=
  m.channel == "iopub" && m.msgType == "comm_msg" && m.method == some "update" &&
    outputWidgetIds.contains m.commId

/-- The widget-usage hint (source lines 411-416): `message.content.data`
is truthy and either carries the widget MIME key or the message's
`content.target_name` is the default comm target. -/
def widgetHint (m : KernelMsg) : Bool :=
  m.hasData && (m.hasWidgetMimeData || m.targetName == some DefaultCommTarget)

/-- `isIPYWidgetOutputModelOpen` (source lines 420-423). -/
def isOutputModelOpen (m : KernelMsg) : Bool :=
  m.msgType == "comm_open" && m.modelModule == some "@jupyter-widgets/output" &&
    m.modelName == some "OutputModel"

/-- The `mustDeserialize` pre-check for string frames (source lines
397-403): the frame mentions the widget MIME marker, the default comm
target, or one of the three comm message types. -/
def mustDeserializeStr (raw : String) : Bool :=
  strIncludes raw WIDGET_MIMETYPE || strIncludes raw DefaultCommTarget ||
    strIncludes raw "comm_open" || strIncludes raw "comm_close" || strIncludes raw "comm_msg"

/-- `mustDeserialize` for an arbitrary frame: every binary frame is
deserialized (source line 398). -/
def RawData.mustDeserialize : RawData → Bool
  | .str raw _ => mustDeserializeStr raw
  | .bin _ => true

/-- How the processing of one inbound frame ends (when it does not throw):
forwarded and finished, dropped by the mirroring predicate, or suspended
awaiting both the render-surface receipt ack (for `ackId`) and the
full-handle completion report (for `gateId`). -/
inductive StepResult where
  | done
  | dropped
  | stalled (ackId gateId : String)
deriving DecidableEq, BEq

/-- The part of `onKernelSocketMessage` before the `mustDeserialize` block
(source lines 370-393): register a waiting entry under the fresh
correlation id, forward string frames the mirroring predicate accepts
(firing `onDisplayMessage` for display-data frames), and forward binary
frames unconditionally.  `smRaw` is the raw-string overload of the external
`shouldMessageBeMirroredWithRenderer` predicate. -/
def onKernelSocketMessageFront (smRaw : String → Bool) (uuid : String) (s : State)
    (data : RawData) : State :=
  let s1 := { s with waitingMessageIds := setInsert s.waitingMessageIds uuid }
  match data with
  | .str raw parsed =>
      if smRaw raw then
        let s2 := { s1 with posted := s1.posted ++ [PostMsg.widgetMsg uuid] }
        if strIncludes raw "display_data" then
          match parsed with
          | .ok m =>
              if m.msgType == "display_data" then
                { s2 with displayed := s2.displayed ++ [m.msgId] }
              else s2
          | .error _ => s2
        else s2
      else s1
  | .bin _ => { s1 with posted := s1.posted ++ [PostMsg.binaryMsg uuid] }

/-- The `mustDeserialize` block of `onKernelSocketMessage` (source lines
404-437): deserialize (a throwing deserializer escapes the function —
there is no catch here), drop frames rejected by the mirroring predicate,
set the sticky widget-usage flag on a widget hint, track Output-widget
comm opens/closes, and open the full-handle gate for tracked updates. -/
def onKernelSocketMessageTail (smMsg : KernelMsg → Bool) (uuid : String) (s : State)
    (mustDeserialize : Bool) (parsed : Except Unit KernelMsg) :
    State × Except Unit StepResult :=
  if mustDeserialize then
    match parsed with
    | .error _ => (s, .error ())
    | .ok message =>
        if !smMsg message then (s, .ok .dropped)
        else
          let s := if widgetHint message then { s with isUsingIPyWidgets := true } else s
          if isOutputModelOpen message then
            ({ s with outputWidgetIds := setInsert s.outputWidgetIds message.commId }, .ok .done)
          else if message.msgType == "comm_close" && s.outputWidgetIds.contains message.commId then
            ({ s with outputWidgetIds := s.outputWidgetIds.erase message.commId }, .ok .done)
          else if messageNeedsFullHandle s.outputWidgetIds message then
            ({ s with fullHandleMessage := some message.msgId }, .ok (.stalled uuid message.msgId))
          else (s, .ok .done)
  else (s, .ok .done)

/-- `onKernelSocketMessage` (source lines 367-438): the front part, then —
unless the display-data deserialization of a mirrored string frame threw
(source line 378, uncaught) — the `mustDeserialize` block.  `uuid` is the
fresh correlation id produced by `generateUuid()`. -/
def onKernelSocketMessage (smRaw : String → Bool) (smMsg : KernelMsg → Bool) (uuid : String)
    (s : State) (data : RawData) : State × Except Unit StepResult :=
  let sf := onKernelSocketMessageFront smRaw uuid s data
  match data with
  | .str raw parsed =>
      match parsed with
      | .error _ =>
          if smRaw raw && strIncludes raw "display_data" then (sf, .error ())
          else onKernelSocketMessageTail smMsg uuid sf (mustDeserializeStr raw) parsed
      | .ok _ => onKernelSocketMessageTail smMsg uuid sf (mustDeserializeStr raw) parsed
  | .bin parsed => onKernelSocketMessageTail smMsg uuid sf true parsed

/-- `mirrorSend` (source lines 295-333), as a function from the old state
to the new state together with how the send hook returns:
`.error ()` when the hook throws (the string branch's `JSON.parse` at
source line 302 is not wrapped in a catch), `.ok none` when the hook
returns without waiting, and `.ok (some id)` when the hook awaits the
deferred registered under `id` (resolved by the render surface's receipt
ack) before returning.  `smMsg` is the external
`shouldMessageBeMirroredWithRenderer` predicate. -/
def mirrorSend (smMsg : KernelMsg → Bool) (s : State) (data : RawData) :
    State × Except Unit (Option String) :=
  match data with
  | .str raw parsed =>
      if strIncludes raw "shell" && strIncludes raw "execute_request" then
        match parsed with
        | .error _ => (s, .error ())
        | .ok msg =>
            if msg.channel == "shell" && msg.msgType == "execute_request" then
              if !smMsg msg then (s, .ok none)
              else
                let s' := { s with
                  waitingMessageIds := setInsert s.waitingMessageIds msg.msgId
                  posted := s.posted ++ [PostMsg.mirrorExecute msg.msgId] }
                (s', .ok (if s.isUsingIPyWidgets then some msg.msgId else none))
            else (s, .ok none)
      else (s, .ok none)
  | .bin parsed =>
      match parsed with
      | .error _ => ({ s with errorsLogged := s.errorsLogged + 1 }, .ok none)
      | .ok msg =>
          if msg.channel == "shell" && msg.msgType == "execute_request" then
            if !smMsg msg then (s, .ok none)
            else
              let s' := { s with
                waitingMessageIds := setInsert s.waitingMessageIds msg.msgId
                posted := s.posted ++ [PostMsg.mirrorExecute msg.msgId] }
              (s', .ok (if s.isUsingIPyWidgets then some msg.msgId else none))
          else (s, .ok none)

/-- The dispatched form of a queued payload: parse it (`JSON.parse` for
strings, `deserialize` for binary — source line 460), normalize `DataView`
buffers to their backing buffers (source lines 463-473), and pick the
control- or shell-channel send path from the `channel` field (source lines
474-478).  The `.error` fallback never occurs for payloads the flush
actually dispatches (the flush stops on a throwing parse). -/
def sendImage (p : RawData) : Bool × KernelMsg :=
  match p.parsed with
  | .ok m =>
      let m := if m.buffers.length != 0 then { m with buffers := m.buffers.map normalizeBuffer }
               else m
      (m.channel == "control", m)
  | .error _ => (false, ⟨"", "", "", "", none, none, none, none, false, false, none, []⟩)

/-- The `while` loop of `sendPendingMessages` (source lines 453-487):
repeatedly look at the queue head, parse / normalize / dispatch it, and
only then shift it off the queue; any throw (parse or dispatch) is caught,
logged and ends the flush with the queue intact.  `sendOk i m` tells
whether the `i`-th dispatch of this flush succeeds (`false` models a
throwing `sendControlMessage` / `sendShellMessage`).  Returns the remaining
queue, the dispatched messages in order, and whether an error was logged. -/
def sendPendingMessagesGo (sendOk : Nat → KernelMsg → Bool) (i : Nat) :
    List RawData → List RawData × List (Bool × KernelMsg) × Bool
  | [] => ([], [], false)
  | p :: rest =>
      match p.parsed with
      | .error _ => (p :: rest, [], true)
      | .ok _ =>
          if sendOk i (sendImage p).2 then
            let r := sendPendingMessagesGo sendOk (i + 1) rest
            (r.1, sendImage p :: r.2.1, r.2.2)
          else (p :: rest, [], true)

/-- `sendPendingMessages` (source lines 446-488): a no-op without a live
kernel; otherwise run the flush loop over the pending queue, appending the
dispatched messages to the kernel-send log. -/
def sendPendingMessages (hasKernel : Bool) (sendOk : Nat → KernelMsg → Bool) (s : State) :
    State :=
  if hasKernel then
    let r := sendPendingMessagesGo sendOk 0 s.pendingMessages
    { s with
      pendingMessages := r.1
      kernelSent := s.kernelSent ++ r.2.1
      errorsLogged := s.errorsLogged + (if r.2.2 then 1 else 0) }
  else s

/-- `sendRawPayloadToKernelSocket` (source lines 170-173): push the payload
onto the pending queue and flush. -/
def sendRawPayloadToKernelSocket (hasKernel : Bool) (sendOk : Nat → KernelMsg → Bool)
    (s : State) (payload : RawData) : State :=
  sendPendingMessages hasKernel sendOk
    { s with pendingMessages := s.pendingMessages ++ [payload] }

/-- The `while` loop of `registerCommTargets` (source lines 491-516),
with fuel for termination (the source loop spins forever when the head
pending name is the empty string, because `if (!targetName) continue;`
treats the empty string as falsy and removes nothing).  Each iteration
takes the first pending name; if it is already in `commTargetsRegistered`
the whole loop RETURNS (leaving the rest of the pending set in place);
otherwise the name is recorded as registered, removed from pending, and —
when a kernel connection is live, the name is not the reserved default and
no third party registered it on this connection (`kernelTargets`) — the
kernel connection's `registerCommTarget` is called.  Returns the new
pending set, the new registered set and the call log. -/
def registerCommTargetsGo (conn : Bool) (kernelTargets : List String) :
    Nat → List String → List String → List String →
      List String × List String × List String
  | 0, pending, registered, calls => (pending, registered, calls)
  | _ + 1, [], registered, calls => ([], registered, calls)
  | fuel + 1, t :: rest, registered, calls =>
      if t == "" then registerCommTargetsGo conn kernelTargets fuel (t :: rest) registered calls
      else if registered.contains t then (t :: rest, registered, calls)
      else
        registerCommTargetsGo conn kernelTargets fuel rest (registered ++ [t])
          (if conn && !(t == DefaultCommTarget) && !kernelTargets.contains t
           then calls ++ [t] else calls)

/-- `registerCommTargets` (source lines 490-517) lifted to the dispatcher
state.  The fuel `s.pendingTargetNames.length` is exact for every pending
set free of the empty string. -/
def registerCommTargets (conn : Bool) (kernelTargets : List String) (s : State) : State :=
  let r := registerCommTargetsGo conn kernelTargets s.pendingTargetNames.length
    s.pendingTargetNames s.commTargetsRegistered s.kernelRegisterCalls
  { s with
    pendingTargetNames := r.1
    commTargetsRegistered := r.2.1
    kernelRegisterCalls := r.2.2 }

/-- `registerCommTarget` (source lines 174-177): add the name to the
pending set and run the init routine, which — when a kernel is live —
drains the pending set (`initialize` at source lines 179-192; the
socket subscription it also performs is a no-op once subscribed). -/
def registerCommTarget (hasKernel : Bool) (kernelTargets : List String) (s : State)
    (targetName : String) : State :=
  let s := { s with pendingTargetNames := setInsert s.pendingTargetNames targetName }
  if hasKernel then registerCommTargets true kernelTargets s else s

/-- `subscribeToKernelSocketImpl` (source lines 220-272).  If the
dispatcher was connected at least once (i.e. this call is a restart), the
pending outbound queue is discarded, every waiting-message deferred is
resolved, every message-hook-request deferred is resolved (with `false`),
the hook map is cleared, and one restart notice is posted.  Then, when the
new kernel socket is known (`hasSocket`): mark the dispatcher connected,
post the kernel options snapshot, re-drain the comm targets and flush the
(now empty, if this was a restart) outbound queue. -/
def subscribeToKernelSocketImpl (hasSocket : Bool) (kernelTargets : List String)
    (sendOk : Nat → KernelMsg → Bool) (s : State) : State :=
  let s :=
    if s.kernelWasConnectedAtLeastOnce then
      { s with
        pendingMessages := []
        resolvedWaits := s.resolvedWaits ++ s.waitingMessageIds
        waitingMessageIds := []
        resolvedHookRequests :=
          s.resolvedHookRequests ++ s.messageHookRequests.map (fun r => (r, false))
        messageHookRequests := []
        messageHooks := []
        posted := s.posted ++ [PostMsg.restartNotice] }
    else s
  if hasSocket then
    let s := { s with
      kernelWasConnectedAtLeastOnce := true
      posted := s.posted ++ [PostMsg.kernelOptions] }
    let s := registerCommTargets true kernelTargets s
    sendPendingMessages true sendOk s
  else s

/-- `removeMessageHook` (source lines 583-589): when a kernel connection is
live and a hook is registered for `msgId`, forget it (and detach it from
the kernel channel). -/
def removeMessageHook (hasKernel : Bool) (s : State) (msgId : String) : State :=
  if hasKernel && s.messageHooks.contains msgId then
    { s with messageHooks := s.messageHooks.erase msgId }
  else s

/-- `registerMessageHook` (source lines 548-563): install a hook for
`msgId` when a kernel connection is live and none exists yet; in all cases
(the `finally`) acknowledge the operation to the render surface. -/
def registerMessageHook (hasKernel : Bool) (s : State) (msgId : String) : State :=
  let s :=
    if hasKernel && !s.messageHooks.contains msgId then
      { s with messageHooks := s.messageHooks ++ [msgId] }
    else s
  { s with posted := s.posted ++ [PostMsg.extensionOperationHandled msgId] }

/-- `possiblyRemoveMessageHook` (source lines 565-581): either defer the
removal until `lastHookedMsgId` is seen, or remove immediately; in all
cases (the `finally`) acknowledge the operation to the render surface. -/
def possiblyRemoveMessageHook (hasKernel : Bool) (s : State) (hookMsgId : String)
    (lastHookedMsgId : Option String) : State :=
  let s :=
    match lastHookedMsgId with
    | some lastId => { s with pendingHookRemovals := assocSet s.pendingHookRemovals lastId hookMsgId }
    | none => removeMessageHook hasKernel s hookMsgId
  { s with posted := s.posted ++ [PostMsg.extensionOperationHandled hookMsgId] }

/-- `messageHookCallback` (source lines 591-612): when a hook is registered
for the message's parent id, open a decision round trip under the fresh
`requestId` and ask the render surface; otherwise the default decision is
"proceed".  Then apply any deferred hook removal triggered by this
message's own id. -/
def messageHookCallback (hasKernel : Bool) (s : State) (requestId : String) (m : KernelMsg) :
    State :=
  let s :=
    if s.messageHooks.contains m.parentMsgId then
      { s with
        messageHookRequests := setInsert s.messageHookRequests requestId
        posted := s.posted ++ [PostMsg.messageHookCall requestId m.parentMsgId] }
    else s
  match assocGet s.pendingHookRemovals m.msgId with
  | some hookId =>
      removeMessageHook hasKernel
        { s with pendingHookRemovals := assocErase s.pendingHookRemovals m.msgId } hookId
  | none => s

/-- `handleKernelRestarts` (source lines 534-546): when not disposed, some
targets are registered and a session exists, move every registered target
back to pending and re-drain. -/
def handleKernelRestarts (hasSession : Bool) (kernelTargets : List String) (s : State) :
    State :=
  if s.disposed || s.commTargetsRegistered.length == 0 || !hasSession then s
  else
    let s := { s with
      pendingTargetNames := s.commTargetsRegistered.foldl setInsert s.pendingTargetNames
      commTargetsRegistered := [] }
    registerCommTargets true kernelTargets s

/-- One reaction of the dispatcher: every state-changing entry point of the
class, with the inputs and external-collaborator responses it consumes.
(`inbound` = a kernel socket frame, `outboundHook` = the kernel socket send
hook, `ack` = `IPyWidgets_msg_received`, `handled` =
`IPyWidgets_iopub_msg_handled`, `socketChange` = a socket change /
restart, the rest are render-surface commands, the restart event and
disposal.) -/
inductive Event where
  | inbound (smRaw : String → Bool) (smMsg : KernelMsg → Bool) (uuid : String) (data : RawData)
  | outboundHook (smMsg : KernelMsg → Bool) (data : RawData)
  | ack (id : String)
  | handled (id : String)
  | socketChange (hasSocket : Bool) (kernelTargets : List String)
      (sendOk : Nat → KernelMsg → Bool)
  | rawSend (hasKernel : Bool) (sendOk : Nat → KernelMsg → Bool) (payload : RawData)
  | commTargetReq (hasKernel : Bool) (kernelTargets : List String) (name : String)
  | regHook (hasKernel : Bool) (id : String)
  | removeHookReq (hasKernel : Bool) (hookMsgId : String) (lastHookedMsgId : Option String)
  | hookCb (hasKernel : Bool) (requestId : String) (m : KernelMsg)
  | hookResponse (requestId msgType : String) (result : Bool)
  | kernelRestarted (hasSession : Bool) (kernelTargets : List String)
  | disposeEvent

/-- Apply one dispatcher reaction to the state. -/
def applyEvent (s : State) : Event → State
  | .inbound smRaw smMsg uuid data => (onKernelSocketMessage smRaw smMsg uuid s data).1
  | .outboundHook smMsg data => (mirrorSend smMsg s data).1
  | .ack id => onKernelSocketResponse s id
  | .handled id => iopubMessageHandled s id
  | .socketChange hasSocket kt sendOk => subscribeToKernelSocketImpl hasSocket kt sendOk s
  | .rawSend hasKernel sendOk payload => sendRawPayloadToKernelSocket hasKernel sendOk s payload
  | .commTargetReq hasKernel kt name => registerCommTarget hasKernel kt s name
  | .regHook hasKernel id => registerMessageHook hasKernel s id
  | .removeHookReq hasKernel hookId lastId => possiblyRemoveMessageHook hasKernel s hookId lastId
  | .hookCb hasKernel requestId m => messageHookCallback hasKernel s requestId m
  | .hookResponse requestId msgType result => handleMessageHookResponse s requestId msgType result
  | .kernelRestarted hasSession kt => handleKernelRestarts hasSession kt s
  | .disposeEvent => dispose s

/-- Apply a sequence of dispatcher reactions. -/
def applyTrace (s : State) (tr : List Event) : State :=
  tr.foldl applyEvent s

/-- Modelled from the spec: the kernel-frame delivery loop that invokes the
dispatcher's receive hook is not under `src/` (it lives with the kernel
socket wrapper), so it is modelled from §2 ("some [frames] require the
Dispatcher to block forwarding any further kernel traffic until the Render
Surface acknowledges full handling") and §5 ("inbound
classification-and-forward preserves kernel delivery order except where
the full-handle gate intentionally stalls it"): frames are handed to the
receive hook strictly in order, and while one frame's processing is
suspended on the full-handle gate no further frame is processed.
`queue` holds the not-yet-delivered frames (each with the fresh correlation
id its processing will draw); `stalled` holds the receipt-ack id and gate
id the suspended frame is awaiting, if any. -/
structure Driver where
  disp : State
  queue : List (String × RawData)
  stalled : Option (String × String)

/-- Events the delivery loop reacts to: deliver the next queued frame,
a render-surface receipt ack, or a full-handle completion report. -/
inductive DEvent where
  | deliverNext
  | ack (id : String)
  | handled (id : String)

/-- After a resolution event, the suspended frame's continuation resumes
once both its awaited deferreds are resolved (source lines 433-435:
`await promise.promise; await this.fullHandleMessage.promise.promise;
this.fullHandleMessage = undefined`). -/
def checkStallDone (d : Driver) : Driver :=
  match d.stalled with
  | some (ackId, gateId) =>
      if d.disp.resolvedWaits.contains ackId && d.disp.resolvedGates.contains gateId then
        { disp := { d.disp with fullHandleMessage := none }, queue := d.queue, stalled := none }
      else d
  | none => d

/-- One step of the delivery loop. -/
def driverStep (smRaw : String → Bool) (smMsg : KernelMsg → Bool) (d : Driver) :
    DEvent → Driver
  | .deliverNext =>
      match d.stalled with
      | some _ => d
      | none =>
          match d.queue with
          | [] => d
          | (uuid, data) :: rest =>
              let r := onKernelSocketMessage smRaw smMsg uuid d.disp data
              match r.2 with
              | .ok (.stalled ackId gateId) =>
                  { disp := r.1, queue := rest, stalled := some (ackId, gateId) }
              | _ => { disp := r.1, queue := rest, stalled := none }
  | .ack id => checkStallDone { d with disp := onKernelSocketResponse d.disp id }
  | .handled id => checkStallDone { d with disp := iopubMessageHandled d.disp id }

/-- Run the delivery loop from a fresh dispatcher on a frame queue. -/
def driverRun (smRaw : String → Bool) (smMsg : KernelMsg → Bool)
    (frames : List (String × RawData)) (tr : List DEvent) : Driver :=
  tr.foldl (driverStep smRaw smMsg) ⟨initState, frames, none⟩

/-! ## Shared helper lemmas -/

theorem setInsert_contains_self {α : Type} [BEq α] [LawfulBEq α] (l : List α) (a : α) :
    (setInsert l a).contains a = true := by
  unfold setInsert
  split
  · assumption
  · simp

theorem setInsert_contains_of_contains {α : Type} [BEq α] [LawfulBEq α] (l : List α) (a b : α)
    (h : l.contains b = true) : (setInsert l a).contains b = true := by
  unfold setInsert
  split
  · exact h
  · simp only [List.elem_iff] at h ⊢
    exact List.mem_append_left _ h

theorem setInsert_mem_self {α : Type} [BEq α] [LawfulBEq α] (l : List α) (a : α) :
    a ∈ setInsert l a := by
  have := setInsert_contains_self l a
  simpa [List.elem_iff] using this

/-! ## C9: message-hook decision responses -/

/-- C9: a message-hook decision response whose reported type contains the
substring `comm` resolves the waiting decision to `true` (proceed)
regardless of the reported `result`; otherwise it resolves to the reported
`result`; and a response naming a correlation id with no matching waiter
leaves the state untouched (no error — `handleMessageHookResponse` is a
total function). -/
theorem messageHookResponse_comm_override (s : State) (requestId msgType : String)
    (result : Bool) :
    (s.messageHookRequests.contains requestId = true →
      strIncludes msgType "comm" = true →
      handleMessageHookResponse s requestId msgType result =
        { s with
          messageHookRequests := s.messageHookRequests.erase requestId
          resolvedHookRequests := s.resolvedHookRequests ++ [(requestId, true)] }) ∧
    (s.messageHookRequests.contains requestId = true →
      strIncludes msgType "comm" = false →
      handleMessageHookResponse s requestId msgType result =
        { s with
          messageHookRequests := s.messageHookRequests.erase requestId
          resolvedHookRequests := s.resolvedHookRequests ++ [(requestId, result)] }) ∧
    (s.messageHookRequests.contains requestId = false →
      handleMessageHookResponse s requestId msgType result = s) := by
  refine ⟨fun h1 h2 => ?_, fun h1 h2 => ?_, fun h1 => ?_⟩
  · have h1' : requestId ∈ s.messageHookRequests := List.elem_iff.mp h1
    simp [handleMessageHookResponse, h1', h2]
  · have h1' : requestId ∈ s.messageHookRequests := List.elem_iff.mp h1
    simp [handleMessageHookResponse, h1', h2]
  · have h1' : requestId ∉ s.messageHookRequests := by simpa using h1
    simp [handleMessageHookResponse, h1']

/-- A state with one outstanding message-hook request. -/
def sC9 : State := { initState with messageHookRequests := ["r1"] }

/-- Witness for C9 at concrete inputs: a `comm_msg` response with
`result = false` still resolves to `true`; a `status` response resolves to
the reported result; an unknown correlation id is ignored. -/
theorem messageHookResponse_comm_override_witness :
    (sC9.messageHookRequests.contains "r1" = true ∧
      strIncludes "comm_msg" "comm" = true ∧
      handleMessageHookResponse sC9 "r1" "comm_msg" false =
        { sC9 with
          messageHookRequests := sC9.messageHookRequests.erase "r1"
          resolvedHookRequests := sC9.resolvedHookRequests ++ [("r1", true)] }) ∧
    (strIncludes "status" "comm" = false ∧
      handleMessageHookResponse sC9 "r1" "status" false =
        { sC9 with
          messageHookRequests := sC9.messageHookRequests.erase "r1"
          resolvedHookRequests := sC9.resolvedHookRequests ++ [("r1", false)] }) ∧
    (sC9.messageHookRequests.contains "zz" = false ∧
      handleMessageHookResponse sC9 "zz" "status" true = sC9) :=
  ⟨⟨by decide, by decide,
      (messageHookResponse_comm_override sC9 "r1" "comm_msg" false).1 (by decide) (by decide)⟩,
   ⟨by decide,
      (messageHookResponse_comm_override sC9 "r1" "status" false).2.1 (by decide) (by decide)⟩,
   ⟨by decide,
      (messageHookResponse_comm_override sC9 "zz" "status" true).2.2 (by decide)⟩⟩

/-! ## C6: disposal and outstanding waits -/

/-- C6 (amended): `dispose()` marks the dispatcher disposed and releases
its subscriptions, and nothing else — outstanding `WaitingMessage`
entries, message-hook-request deferreds and any full-handle wait are left
in place, unresolved (they are resolved only by a response or by a kernel
restart, never by disposal). -/
theorem dispose_leaves_waits_unresolved (s : State) :
    (dispose s).disposed = true ∧ (dispose s).disposables = 0 ∧
    (dispose s).waitingMessageIds = s.waitingMessageIds ∧
    (dispose s).resolvedWaits = s.resolvedWaits ∧
    (dispose s).messageHookRequests = s.messageHookRequests ∧
    (dispose s).resolvedHookRequests = s.resolvedHookRequests ∧
    (dispose s).fullHandleMessage = s.fullHandleMessage ∧
    (dispose s).resolvedGates = s.resolvedGates := by
  simp [dispose]

/-- A shell `execute_request` message with id `m1`. -/
def execMsgM1 : KernelMsg where
  channel := "shell"
  msgType := "execute_request"
  msgId := "m1"
  parentMsgId := ""
  commId := none
  method := none
  modelModule := none
  modelName := none
  hasData := false
  hasWidgetMimeData := false
  targetName := none
  buffers := []

/-- A dispatcher that mirrored one execute request and is then disposed:
the state reached from the constructor state by the send hook observing a
shell `execute_request` frame. -/
def sC6 : State :=
  (mirrorSend (fun _ => true) initState (.str "shell execute_request" (.ok execMsgM1))).1

/-- C6 counterexample: after the dispatcher mirrored an execute request
(registering the waiting entry `m1`), `dispose()` leaves that entry in
place and unresolved — the caller awaiting the dispatcher's signal for
`m1` is still waiting after disposal, contradicting the claim that no
WaitingMessage entry survives disposal unresolved. -/
theorem dispose_counterexample :
    (dispose sC6).waitingMessageIds = ["m1"] ∧
    (dispose sC6).resolvedWaits.contains "m1" = false ∧
    (dispose sC6).disposed = true := by decide

/-! ## C7: execute-request mirroring synchronization -/

/-- C7: for every outbound shell `execute_request` frame accepted by the
mirroring predicate (string or binary wire form), the send hook registers
a waiting entry under the message id and notifies the render surface; it
returns without waiting (`.ok none`) when the sticky widget-usage flag is
unset, and awaits the render surface's receipt ack for exactly that
message id (`.ok (some _)`) when the flag is set — the ack response is
what resolves the registered wait. -/
theorem mirrorSend_waits_iff_widgets (smMsg : KernelMsg → Bool) (s : State)
    (raw : String) (m : KernelMsg)
    (hsh : strIncludes raw "shell" = true) (her : strIncludes raw "execute_request" = true)
    (hch : m.channel = "shell") (hty : m.msgType = "execute_request")
    (hsm : smMsg m = true) :
    (mirrorSend smMsg s (.str raw (.ok m)) =
      ({ s with
          waitingMessageIds := setInsert s.waitingMessageIds m.msgId
          posted := s.posted ++ [PostMsg.mirrorExecute m.msgId] },
        .ok (if s.isUsingIPyWidgets then some m.msgId else none))) ∧
    (mirrorSend smMsg s (.bin (.ok m)) =
      ({ s with
          waitingMessageIds := setInsert s.waitingMessageIds m.msgId
          posted := s.posted ++ [PostMsg.mirrorExecute m.msgId] },
        .ok (if s.isUsingIPyWidgets then some m.msgId else none))) ∧
    (s.isUsingIPyWidgets = false → (mirrorSend smMsg s (.str raw (.ok m))).2 = .ok none) ∧
    (s.isUsingIPyWidgets = true →
      (mirrorSend smMsg s (.str raw (.ok m))).2 = .ok (some m.msgId)) ∧
    ((mirrorSend smMsg s (.str raw (.ok m))).1.waitingMessageIds.contains m.msgId = true) ∧
    ((onKernelSocketResponse (mirrorSend smMsg s (.str raw (.ok m))).1 m.msgId).resolvedWaits =
      s.resolvedWaits ++ [m.msgId]) := by
  have hmain :
      mirrorSend smMsg s (.str raw (.ok m)) =
        ({ s with
            waitingMessageIds := setInsert s.waitingMessageIds m.msgId
            posted := s.posted ++ [PostMsg.mirrorExecute m.msgId] },
          .ok (if s.isUsingIPyWidgets then some m.msgId else none)) := by
    simp [mirrorSend, hsh, her, hch, hty, hsm]
  have hbin :
      mirrorSend smMsg s (.bin (.ok m)) =
        ({ s with
            waitingMessageIds := setInsert s.waitingMessageIds m.msgId
            posted := s.posted ++ [PostMsg.mirrorExecute m.msgId] },
          .ok (if s.isUsingIPyWidgets then some m.msgId else none)) := by
    simp [mirrorSend, hch, hty, hsm]
  refine ⟨hmain, hbin, fun h0 => ?_, fun h1 => ?_, ?_, ?_⟩
  · rw [hmain]; simp [h0]
  · rw [hmain]; simp [h1]
  · rw [hmain]; exact setInsert_contains_self _ _
  · rw [hmain]
    simp [onKernelSocketResponse, setInsert_mem_self]

/-- A dispatcher state that has already observed widget usage. -/
def sC7 : State := { initState with isUsingIPyWidgets := true }

/-- Witness for C7 at concrete inputs: with widget usage observed, the
send hook for a concrete accepted execute request awaits the ack for its
message id. -/
theorem mirrorSend_waits_iff_widgets_witness :
    (strIncludes "shell execute_request" "shell" = true ∧
      strIncludes "shell execute_request" "execute_request" = true ∧
      execMsgM1.channel = "shell" ∧ execMsgM1.msgType = "execute_request") ∧
    ((mirrorSend (fun _ => true) sC7 (.str "shell execute_request" (.ok execMsgM1))).2 =
        .ok (some execMsgM1.msgId) ∧
      (onKernelSocketResponse
          (mirrorSend (fun _ => true) sC7
            (.str "shell execute_request" (.ok execMsgM1))).1 execMsgM1.msgId).resolvedWaits =
        sC7.resolvedWaits ++ [execMsgM1.msgId]) :=
  ⟨⟨by decide, by decide, rfl, rfl⟩,
    (mirrorSend_waits_iff_widgets (fun _ => true) sC7 "shell execute_request" execMsgM1
        (by decide) (by decide) rfl rfl rfl).2.2.2.1 rfl,
    (mirrorSend_waits_iff_widgets (fun _ => true) sC7 "shell execute_request" execMsgM1
        (by decide) (by decide) rfl rfl rfl).2.2.2.2.2⟩

/-! ## C8: malformed frames -/

/-- A string frame that passes the cheap `includes` pre-checks of the send
hook but is not valid JSON: its parse throws. -/
def badExecFrame : RawData := .str "shell execute_request not-json" (.error ())

/-- C8 counterexample: for this malformed string frame the send hook's
`JSON.parse` (source line 302, not wrapped in any catch) throws, and the
exception escapes `mirrorSend` — refuting the claim that no exception
escapes the frame-handling functions. -/
theorem malformedFrame_counterexample :
    (mirrorSend (fun _ => true) initState badExecFrame).2 = .error () := rfl

/-- C8 (amended): a deserialization failure is caught, logged and the
frame dropped only where the source has a catch — `mirrorSend`'s binary
branch (source lines 315-331) and the outbound flush loop (source lines
454-486).  In `mirrorSend`'s string branch (source line 302) and in
`onKernelSocketMessage` (source lines 378 and 405) the parse failure
propagates to the caller. -/
theorem malformedFrame_handling (smRaw : String → Bool) (smMsg : KernelMsg → Bool)
    (s : State) :
    (mirrorSend smMsg s (.bin (.error ())) =
      ({ s with errorsLogged := s.errorsLogged + 1 }, .ok none)) ∧
    (∀ raw, strIncludes raw "shell" = true → strIncludes raw "execute_request" = true →
      (mirrorSend smMsg s (.str raw (.error ()))).2 = .error ()) ∧
    (∀ uuid data, data.parsed = .error () → data.mustDeserialize = true →
      (onKernelSocketMessage smRaw smMsg uuid s data).2 = .error ()) ∧
    (∀ sendOk i p (q : List RawData), p.parsed = .error () →
      sendPendingMessagesGo sendOk i (p :: q) = (p :: q, [], true)) := by
  refine ⟨?_, fun raw h1 h2 => ?_, fun uuid data h1 h2 => ?_, fun sendOk i p q h1 => ?_⟩
  · simp [mirrorSend]
  · simp [mirrorSend, h1, h2]
  · cases data with
    | str raw parsed =>
        simp only [RawData.parsed] at h1
        simp only [RawData.mustDeserialize] at h2
        subst h1
        simp only [onKernelSocketMessage]
        split
        · rfl
        · simp [onKernelSocketMessageTail, h2]
    | bin parsed =>
        simp only [RawData.parsed] at h1
        subst h1
        simp [onKernelSocketMessage, onKernelSocketMessageTail]
  · simp [sendPendingMessagesGo, h1]

/-- Witness for C8's amended statement at concrete inputs. -/
theorem malformedFrame_handling_witness :
    (mirrorSend (fun _ => true) initState (.bin (.error ())) =
      ({ initState with errorsLogged := initState.errorsLogged + 1 }, .ok none)) ∧
    ((mirrorSend (fun _ => true) initState
        (.str "shell execute_request not-json" (.error ()))).2 = .error ()) ∧
    ((onKernelSocketMessage (fun _ => true) (fun _ => true) "u1" initState
        (.str "comm_open not-json" (.error ()))).2 = .error ()) ∧
    (sendPendingMessagesGo (fun _ _ => true) 0
        [RawData.str "not-json" (.error ()), RawData.bin (.ok execMsgM1)] =
      ([RawData.str "not-json" (.error ()), RawData.bin (.ok execMsgM1)], [], true)) :=
  ⟨(malformedFrame_handling (fun _ => true) (fun _ => true) initState).1,
   (malformedFrame_handling (fun _ => true) (fun _ => true) initState).2.1
      "shell execute_request not-json" (by decide) (by decide),
   (malformedFrame_handling (fun _ => true) (fun _ => true) initState).2.2.1
      "u1" (.str "comm_open not-json" (.error ())) rfl (by decide),
   (malformedFrame_handling (fun _ => true) (fun _ => true) initState).2.2.2
      (fun _ _ => true) 0 (RawData.str "not-json" (.error ()))
      [RawData.bin (.ok execMsgM1)] rfl⟩

/-! ## C1: FIFO outbound flush -/

/-- C1: for every queue of raw payloads, the flush loop dispatches exactly
a front prefix of the queue, in queue order (FIFO), to the kernel channel
(`sendImage` = parse, buffer-normalize and pick the control/shell path);
every dispatched payload parsed successfully and its dispatch succeeded
(a payload is removed only after its dispatch succeeds — the remaining
queue is exactly the untouched tail from the first failure on); the flush
stops early exactly when an error was caught and logged, and the loop is a
total function — the catch swallows the exception, so nothing propagates
to the caller that queued the message. -/
theorem sendPendingMessages_fifo (sendOk : Nat → KernelMsg → Bool) (i : Nat)
    (q : List RawData) :
    ∃ k, k ≤ q.length ∧
      (sendPendingMessagesGo sendOk i q).1 = q.drop k ∧
      (sendPendingMessagesGo sendOk i q).2.1 = (q.take k).map sendImage ∧
      (∀ j (hj : j < q.length), j < k →
        (∃ m, (q.get ⟨j, hj⟩).parsed = .ok m) ∧
        sendOk (i + j) (sendImage (q.get ⟨j, hj⟩)).2 = true) ∧
      ((sendPendingMessagesGo sendOk i q).2.2 = true ↔ k < q.length) := by
  induction q generalizing i with
  | nil =>
      refine ⟨0, by simp, ?_, ?_, ?_, ?_⟩ <;> simp [sendPendingMessagesGo]
  | cons p rest ih =>
      cases hp : p.parsed with
      | error e =>
          refine ⟨0, by simp, ?_, ?_, ?_, ?_⟩
          · simp [sendPendingMessagesGo, hp]
          · simp [sendPendingMessagesGo, hp]
          · intro j hj hjk; omega
          · simp [sendPendingMessagesGo, hp]
      | ok m =>
          by_cases hs : sendOk i (sendImage p).2 = true
          · obtain ⟨k, hk, h1, h2, h3, h4⟩ := ih (i + 1)
            refine ⟨k + 1, by simpa using Nat.succ_le_succ hk, ?_, ?_, ?_, ?_⟩
            · simp [sendPendingMessagesGo, hp, hs, h1]
            · simp [sendPendingMessagesGo, hp, hs, h2]
            · intro j hj hjk
              cases j with
              | zero => exact ⟨⟨m, hp⟩, by simpa using hs⟩
              | succ j' =>
                  have hj' : j' < rest.length := by simpa using hj
                  have h := h3 j' hj' (by omega)
                  refine ⟨by simpa using h.1, ?_⟩
                  have := h.2
                  rw [show i + 1 + j' = i + (j' + 1) by omega] at this
                  simpa using this
            · simp [sendPendingMessagesGo, hp, hs, h4]
          · refine ⟨0, by simp, ?_, ?_, ?_, ?_⟩
            · simp [sendPendingMessagesGo, hp, hs]
            · simp [sendPendingMessagesGo, hp, hs]
            · intro j hj hjk; omega
            · simp [sendPendingMessagesGo, hp, hs]

/-- A control-channel message carrying a `DataView` buffer. -/
def ctrlMsgC1 : KernelMsg where
  channel := "control"
  msgType := "shutdown_request"
  msgId := "c1"
  parentMsgId := ""
  commId := none
  method := none
  modelModule := none
  modelName := none
  hasData := false
  hasWidgetMimeData := false
  targetName := none
  buffers := [.dataView [1, 2, 3]]

/-- A concrete two-payload queue. -/
def qC1 : List RawData := [.str "payload-a" (.ok execMsgM1), .bin (.ok ctrlMsgC1)]

/-- Witness for C1 at a concrete queue where every dispatch succeeds. -/
theorem sendPendingMessages_fifo_witness :
    ∃ k, k ≤ qC1.length ∧
      (sendPendingMessagesGo (fun _ _ => true) 0 qC1).1 = qC1.drop k ∧
      (sendPendingMessagesGo (fun _ _ => true) 0 qC1).2.1 = (qC1.take k).map sendImage ∧
      (∀ j (hj : j < qC1.length), j < k →
        (∃ m, (qC1.get ⟨j, hj⟩).parsed = .ok m) ∧
        (fun _ _ => true : Nat → KernelMsg → Bool) (0 + j)
          (sendImage (qC1.get ⟨j, hj⟩)).2 = true) ∧
      ((sendPendingMessagesGo (fun _ _ => true) 0 qC1).2.2 = true ↔ k < qC1.length) :=
  sendPendingMessages_fifo (fun _ _ => true) 0 qC1

/-! ## C2: comm-target registration -/

/-- Comm-target scenario, step 1: a kernel is live and the constructor's
pending default target is drained. -/
def sC2a : State := registerCommTargets true [] initState

/-- Step 2: the render surface requests target `A`. -/
def sC2b : State := registerCommTarget true [] sC2a "A"

/-- Step 3: target `A` is requested again (a repeat). -/
def sC2c : State := registerCommTarget true [] sC2b "A"

/-- Step 4: target `B` is requested. -/
def sC2d : State := registerCommTarget true [] sC2c "B"

/-- C2 counterexample: after registering `A`, re-requesting `A` and then
requesting `B`, the drain loop's early `return` on the already-registered
head `A` (source lines 497-500) leaves `B` pending forever:
`commTargetsRegistered` never contains `B`, so it does not end up equal to
the set of distinct names requested (`jupyter.widget`, `A`, `B`). -/
theorem registerCommTargets_counterexample :
    sC2d.commTargetsRegistered = ["jupyter.widget", "A"] ∧
    sC2d.commTargetsRegistered.contains "B" = false ∧
    sC2d.pendingTargetNames = ["A", "B"] := by decide

/-- C2 (amended): (1) when no pending name repeats an already-registered
one (and none is empty), the drain registers exactly the distinct pending
names, in order, and calls the kernel connection's `registerCommTarget`
exactly for those that are neither the reserved default nor already
third-party-registered; (2) in every drain, unconditionally, the new
kernel-registration calls are pairwise distinct names that were
unregistered when the drain started and are registered when it ends —
so a name is passed to the kernel connection at most once per connection
lifetime. -/
theorem registerCommTargets_drain (conn : Bool) (kt : List String)
    (pending registered calls : List String)
    (hnd : pending.Nodup)
    (hdisj : ∀ t ∈ pending, t ∉ registered)
    (hne : ∀ t ∈ pending, t ≠ "") :
    (registerCommTargetsGo conn kt pending.length pending registered calls =
      ([], registered ++ pending,
        calls ++ pending.filter
          (fun t => conn && !(t == DefaultCommTarget) && !kt.contains t))) ∧
    (∀ fuel p r c, ∃ ext,
      (registerCommTargetsGo conn kt fuel p r c).2.2 = c ++ ext ∧
      ext.Nodup ∧
      (∀ t ∈ ext, t ∉ r ∧ t ∈ (registerCommTargetsGo conn kt fuel p r c).2.1) ∧
      (∀ t ∈ r, t ∈ (registerCommTargetsGo conn kt fuel p r c).2.1)) := by
  constructor
  · induction pending generalizing registered calls with
    | nil => simp [registerCommTargetsGo]
    | cons t rest ih =>
        have ht : (t == "") = false :=
          beq_eq_false_iff_ne.mpr (hne t (List.mem_cons_self t rest))
        have hcon : registered.contains t = false := by
          simpa using hdisj t (List.mem_cons_self t rest)
        have hrest :=
          ih (registered ++ [t]) (calls ++ (if conn && !(t == DefaultCommTarget) &&
            !kt.contains t then [t] else []))
            (List.Nodup.of_cons hnd)
            (fun x hx => by
              have hxr : x ∉ registered := hdisj x (List.mem_cons_of_mem t hx)
              have hxt : x ≠ t := by
                intro hEq; subst hEq
                exact (List.nodup_cons.mp hnd).1 hx
              simp [hxr, hxt])
            (fun x hx => hne x (List.mem_cons_of_mem t hx))
        simp only [List.length_cons, registerCommTargetsGo, ht, hcon, Bool.false_eq_true,
          if_false]
        rw [show (if conn && !(t == DefaultCommTarget) && !kt.contains t
              then calls ++ [t] else calls) =
            calls ++ (if conn && !(t == DefaultCommTarget) && !kt.contains t
              then [t] else []) by split <;> simp]
        rw [hrest]
        simp [List.filter_cons, List.append_assoc]
        split <;> simp
  · intro fuel
    induction fuel with
    | zero =>
        intro p r c
        exact ⟨[], by simp [registerCommTargetsGo], by simp, by simp,
          fun t ht => by simpa [registerCommTargetsGo] using ht⟩
    | succ fuel ih =>
        intro p r c
        match p with
        | [] =>
            exact ⟨[], by simp [registerCommTargetsGo], by simp, by simp,
              fun t ht => by simpa [registerCommTargetsGo] using ht⟩
        | t :: rest =>
            by_cases ht : (t == "") = true
            · have := ih (t :: rest) r c
              simpa [registerCommTargetsGo, ht] using this
            · rw [Bool.not_eq_true] at ht
              by_cases hcon : r.contains t = true
              · have hmem : t ∈ r := List.elem_iff.mp hcon
                refine ⟨[], ?_, by simp, by simp, ?_⟩
                · simp [registerCommTargetsGo, ht, hmem]
                · intro x hx
                  simpa [registerCommTargetsGo, ht, hmem] using hx
              · rw [Bool.not_eq_true] at hcon
                obtain ⟨ext, hcalls, hnodup, hfresh, hmono⟩ :=
                  ih rest (r ++ [t])
                    (c ++ (if conn && !(t == DefaultCommTarget) && !kt.contains t
                      then [t] else []))
                have hgo : registerCommTargetsGo conn kt (fuel + 1) (t :: rest) r c =
                    registerCommTargetsGo conn kt fuel rest (r ++ [t])
                      (c ++ (if conn && !(t == DefaultCommTarget) && !kt.contains t
                        then [t] else [])) := by
                  simp only [registerCommTargetsGo, ht, hcon, Bool.false_eq_true, if_false]
                  congr 1
                  split <;> simp
                refine ⟨(if conn && !(t == DefaultCommTarget) && !kt.contains t
                    then [t] else []) ++ ext, ?_, ?_, ?_, ?_⟩
                · rw [hgo, hcalls]; simp [List.append_assoc]
                · have htext : t ∉ ext := fun hmem => by
                    have := (hfresh t hmem).1
                    simp at this
                  split
                  · simpa using ⟨htext, hnodup⟩
                  · simpa using hnodup
                · intro x hx
                  rw [hgo]
                  rcases List.mem_append.mp hx with hx1 | hx2
                  · have hxt : x = t := by
                      revert hx1
                      split <;> simp
                    subst hxt
                    refine ⟨by simpa using hcon, ?_⟩
                    exact hmono x (by simp)
                  · have hx' := hfresh x hx2
                    refine ⟨fun hxr => hx'.1 (List.mem_append_left _ hxr), hx'.2⟩
                · intro x hxr
                  rw [hgo]
                  exact hmono x (List.mem_append_left _ hxr)

/-- Witness for C2's amended statement: draining two fresh names `A`, `B`
with a live connection registers both and calls the kernel for both. -/
theorem registerCommTargets_drain_witness :
    (["A", "B"] : List String).Nodup ∧
    (registerCommTargetsGo true [] (["A", "B"] : List String).length ["A", "B"]
        ["jupyter.widget"] [] =
      ([], ["jupyter.widget"] ++ ["A", "B"],
        [] ++ (["A", "B"] : List String).filter
          (fun t => true && !(t == DefaultCommTarget) && !(([] : List String).contains t)))) :=
  ⟨by decide,
    (registerCommTargets_drain true [] ["A", "B"] ["jupyter.widget"] []
      (by decide) (by decide) (by decide)).1⟩

/-! ## C3: kernel restart resynchronization -/

/-- C3: when a socket change is handled after the dispatcher has connected
to a kernel at least once (i.e. a restart), `subscribeToKernelSocketImpl`
discards the entire pending outbound queue without dispatching anything
(`kernelSent` is unchanged, the queue ends empty — the flush only ever
draws from the queue, so no pre-restart payload is sent afterwards),
resolves every outstanding waiting-message deferred and every outstanding
message-hook-request deferred (the modelled code has no rejection path at
all, so resolution is never a rejection), clears all registered message
hooks, and posts the restart notice to the render surface exactly once. -/
theorem kernelRestart_flushes_state (hasSocket : Bool) (kernelTargets : List String)
    (sendOk : Nat → KernelMsg → Bool) (s : State)
    (h : s.kernelWasConnectedAtLeastOnce = true) :
    ((subscribeToKernelSocketImpl hasSocket kernelTargets sendOk s).pendingMessages = []) ∧
    ((subscribeToKernelSocketImpl hasSocket kernelTargets sendOk s).kernelSent =
      s.kernelSent) ∧
    (∀ id ∈ s.waitingMessageIds,
      id ∈ (subscribeToKernelSocketImpl hasSocket kernelTargets sendOk s).resolvedWaits) ∧
    ((subscribeToKernelSocketImpl hasSocket kernelTargets sendOk s).waitingMessageIds = []) ∧
    (∀ r ∈ s.messageHookRequests,
      (r, false) ∈
        (subscribeToKernelSocketImpl hasSocket kernelTargets sendOk s).resolvedHookRequests) ∧
    ((subscribeToKernelSocketImpl hasSocket kernelTargets sendOk s).messageHookRequests
      = []) ∧
    ((subscribeToKernelSocketImpl hasSocket kernelTargets sendOk s).messageHooks = []) ∧
    ((subscribeToKernelSocketImpl hasSocket kernelTargets sendOk
        s).posted.count PostMsg.restartNotice =
      s.posted.count PostMsg.restartNotice + 1) := by
  cases hasSocket with
  | false =>
      refine ⟨?_, ?_, ?_, ?_, ?_, ?_, ?_, ?_⟩ <;>
          simp [subscribeToKernelSocketImpl, h, List.count_append] <;>
        first
          | (intro x hx; exact Or.inr hx)
          | decide
  | true =>
      refine ⟨?_, ?_, ?_, ?_, ?_, ?_, ?_, ?_⟩ <;>
          simp [subscribeToKernelSocketImpl, h, registerCommTargets, sendPendingMessages,
            sendPendingMessagesGo, List.count_append] <;>
        first
          | (intro x hx; exact Or.inr hx)
          | decide

/-- A previously-connected dispatcher with an outstanding wait, an
outstanding hook request, a registered hook and two queued payloads. -/
def sC3 : State :=
  { initState with
    kernelWasConnectedAtLeastOnce := true
    waitingMessageIds := ["w1", "w2"]
    messageHookRequests := ["r1"]
    messageHooks := ["h1"]
    pendingMessages := [.str "payload-a" (.ok execMsgM1)] }

/-- Witness for C3 at the concrete state `sC3`. -/
theorem kernelRestart_flushes_state_witness :
    sC3.kernelWasConnectedAtLeastOnce = true ∧
    (((subscribeToKernelSocketImpl true [] (fun _ _ => true) sC3).pendingMessages = []) ∧
      ((subscribeToKernelSocketImpl true [] (fun _ _ => true) sC3).kernelSent =
        sC3.kernelSent) ∧
      (∀ id ∈ sC3.waitingMessageIds,
        id ∈ (subscribeToKernelSocketImpl true [] (fun _ _ => true) sC3).resolvedWaits) ∧
      ((subscribeToKernelSocketImpl true [] (fun _ _ => true) sC3).waitingMessageIds = []) ∧
      (∀ r ∈ sC3.messageHookRequests,
        (r, false) ∈
          (subscribeToKernelSocketImpl true [] (fun _ _ => true) sC3).resolvedHookRequests) ∧
      ((subscribeToKernelSocketImpl true [] (fun _ _ => true) sC3).messageHookRequests
        = []) ∧
      ((subscribeToKernelSocketImpl true [] (fun _ _ => true) sC3).messageHooks = []) ∧
      ((subscribeToKernelSocketImpl true [] (fun _ _ =>
          true) sC3).posted.count PostMsg.restartNotice =
        sC3.posted.count PostMsg.restartNotice + 1)) :=
  ⟨rfl, kernelRestart_flushes_state true [] (fun _ _ => true) sC3 rfl⟩

/-! ## Classifier helper lemmas -/

theorem setInsert_of_not_mem {α : Type} [BEq α] [LawfulBEq α] (l : List α) (a : α)
    (h : a ∉ l) : setInsert l a = l ++ [a] := by
  unfold setInsert
  rw [if_neg]
  simp [List.elem_iff, h]

theorem front_classifier_fields (smRaw : String → Bool) (uuid : String) (s : State)
    (data : RawData) :
    (onKernelSocketMessageFront smRaw uuid s data).fullHandleMessage = s.fullHandleMessage ∧
    (onKernelSocketMessageFront smRaw uuid s data).outputWidgetIds = s.outputWidgetIds ∧
    (onKernelSocketMessageFront smRaw uuid s data).isUsingIPyWidgets = s.isUsingIPyWidgets ∧
    (onKernelSocketMessageFront smRaw uuid s data).resolvedGates = s.resolvedGates := by
  unfold onKernelSocketMessageFront
  cases data with
  | str raw parsed =>
      cases parsed with
      | ok m =>
          by_cases h1 : smRaw raw = true <;>
            by_cases h2 : strIncludes raw "display_data" = true <;>
              by_cases h3 : (m.msgType == "display_data") = true <;>
                simp [h1, h2, h3]
      | error e =>
          by_cases h1 : smRaw raw = true <;>
            by_cases h2 : strIncludes raw "display_data" = true <;>
              simp [h1, h2]
  | bin parsed => simp

theorem tail_open_spec (smMsg : KernelMsg → Bool) (uuid : String) (s : State)
    (m : KernelMsg) (hsm : smMsg m = true) (hopen : isOutputModelOpen m = true) :
    (onKernelSocketMessageTail smMsg uuid s true (.ok m)).2 = .ok .done ∧
    (onKernelSocketMessageTail smMsg uuid s true (.ok m)).1.outputWidgetIds =
      setInsert s.outputWidgetIds m.commId ∧
    (onKernelSocketMessageTail smMsg uuid s true (.ok m)).1.fullHandleMessage =
      s.fullHandleMessage ∧
    (onKernelSocketMessageTail smMsg uuid s true (.ok m)).1.resolvedGates = s.resolvedGates := by
  unfold onKernelSocketMessageTail
  by_cases hw : widgetHint m = true <;> simp [hsm, hopen, hw]

theorem tail_close_spec (smMsg : KernelMsg → Bool) (uuid : String) (s : State)
    (m : KernelMsg) (hsm : smMsg m = true) (hopen : isOutputModelOpen m = false)
    (hclose : (m.msgType == "comm_close" && s.outputWidgetIds.contains m.commId) = true) :
    (onKernelSocketMessageTail smMsg uuid s true (.ok m)).2 = .ok .done ∧
    (onKernelSocketMessageTail smMsg uuid s true (.ok m)).1.outputWidgetIds =
      s.outputWidgetIds.erase m.commId ∧
    (onKernelSocketMessageTail smMsg uuid s true (.ok m)).1.fullHandleMessage =
      s.fullHandleMessage ∧
    (onKernelSocketMessageTail smMsg uuid s true (.ok m)).1.resolvedGates = s.resolvedGates := by
  unfold onKernelSocketMessageTail
  simp only [Bool.and_eq_true, beq_iff_eq, List.elem_iff] at hclose
  by_cases hw : widgetHint m = true <;> simp [hsm, hopen, hw, hclose.1, hclose.2]

theorem closeCond_false_elim (s : State) (m : KernelMsg)
    (hclose : (m.msgType == "comm_close" && s.outputWidgetIds.contains m.commId) = false) :
    ¬(m.msgType = "comm_close" ∧ m.commId ∈ s.outputWidgetIds) := by
  intro hc
  have ht : (m.msgType == "comm_close" && s.outputWidgetIds.contains m.commId) = true := by
    simp [hc.1, hc.2]
  rw [ht] at hclose
  exact absurd hclose (by simp)

theorem tail_stall_spec (smMsg : KernelMsg → Bool) (uuid : String) (s : State)
    (m : KernelMsg) (hsm : smMsg m = true) (hopen : isOutputModelOpen m = false)
    (hclose : (m.msgType == "comm_close" && s.outputWidgetIds.contains m.commId) = false)
    (hneed : messageNeedsFullHandle s.outputWidgetIds m = true) :
    (onKernelSocketMessageTail smMsg uuid s true (.ok m)).2 =
      .ok (.stalled uuid m.msgId) ∧
    (onKernelSocketMessageTail smMsg uuid s true (.ok m)).1.fullHandleMessage =
      some m.msgId ∧
    (onKernelSocketMessageTail smMsg uuid s true (.ok m)).1.outputWidgetIds =
      s.outputWidgetIds ∧
    (onKernelSocketMessageTail smMsg uuid s true (.ok m)).1.resolvedGates = s.resolvedGates := by
  unfold onKernelSocketMessageTail
  have hclose' := closeCond_false_elim s m hclose
  by_cases hw : widgetHint m = true <;> simp [hsm, hopen, hclose', hneed, hw]

theorem tail_done_spec (smMsg : KernelMsg → Bool) (uuid : String) (s : State)
    (m : KernelMsg) (hsm : smMsg m = true) (hopen : isOutputModelOpen m = false)
    (hclose : (m.msgType == "comm_close" && s.outputWidgetIds.contains m.commId) = false)
    (hneed : messageNeedsFullHandle s.outputWidgetIds m = false) :
    (onKernelSocketMessageTail smMsg uuid s true (.ok m)).2 = .ok .done ∧
    (onKernelSocketMessageTail smMsg uuid s true (.ok m)).1.fullHandleMessage =
      s.fullHandleMessage ∧
    (onKernelSocketMessageTail smMsg uuid s true (.ok m)).1.outputWidgetIds =
      s.outputWidgetIds ∧
    (onKernelSocketMessageTail smMsg uuid s true (.ok m)).1.resolvedGates = s.resolvedGates := by
  unfold onKernelSocketMessageTail
  have hclose' := closeCond_false_elim s m hclose
  by_cases hw : widgetHint m = true <;> simp [hsm, hopen, hclose', hneed, hw]

theorem onKernelSocketMessage_bin_eq_tail (smRaw : String → Bool) (smMsg : KernelMsg → Bool)
    (uuid : String) (s : State) (m : KernelMsg) :
    onKernelSocketMessage smRaw smMsg uuid s (.bin (.ok m)) =
      onKernelSocketMessageTail smMsg uuid
        (onKernelSocketMessageFront smRaw uuid s (.bin (.ok m))) true (.ok m) := rfl

/-! ## C4: Output-widget full-handle gating -/

/-- C4: once a `comm_open` whose payload state identifies module
`@jupyter-widgets/output` / name `OutputModel` is observed for comm id
`X`, a later iopub `comm_msg` with method `update` targeting `X` suspends
inbound processing of that frame — the processing result is
`.stalled`, the gate opens keyed by that message's id, a completion report
for any other id leaves the gate open, and only the matching report
resolves and clears it.  If a `comm_close` for `X` is observed first, `X`
is removed from tracking and the same update message is processed as an
ordinary message (`.done`, no gate). -/
theorem outputWidget_fullHandle_gating
    (smRaw : String → Bool) (smMsg : KernelMsg → Bool) (s : State)
    (mOpen mUpd mClose : KernelMsg) (X u1 u2 u3 u4 : String)
    (hsm1 : smMsg mOpen = true) (hsm2 : smMsg mUpd = true) (hsm3 : smMsg mClose = true)
    (hOpenTy : mOpen.msgType = "comm_open")
    (hOpenMod : mOpen.modelModule = some "@jupyter-widgets/output")
    (hOpenName : mOpen.modelName = some "OutputModel")
    (hOpenComm : mOpen.commId = some X)
    (hUpdCh : mUpd.channel = "iopub") (hUpdTy : mUpd.msgType = "comm_msg")
    (hUpdMeth : mUpd.method = some "update") (hUpdComm : mUpd.commId = some X)
    (hCloseTy : mClose.msgType = "comm_close") (hCloseComm : mClose.commId = some X)
    (hFresh : some X ∉ s.outputWidgetIds)
    (hGate : s.fullHandleMessage = none) :
    ∀ s1, s1 = (onKernelSocketMessage smRaw smMsg u1 s (.bin (.ok mOpen))).1 →
      s1.outputWidgetIds = s.outputWidgetIds ++ [some X] ∧
      (∀ r2, r2 = onKernelSocketMessage smRaw smMsg u2 s1 (.bin (.ok mUpd)) →
        r2.2 = .ok (.stalled u2 mUpd.msgId) ∧
        r2.1.fullHandleMessage = some mUpd.msgId ∧
        (∀ other, other ≠ mUpd.msgId →
          (iopubMessageHandled r2.1 other).fullHandleMessage = some mUpd.msgId) ∧
        (iopubMessageHandled r2.1 mUpd.msgId).fullHandleMessage = none ∧
        (iopubMessageHandled r2.1 mUpd.msgId).resolvedGates =
          r2.1.resolvedGates ++ [mUpd.msgId]) ∧
      (∀ s2, s2 = (onKernelSocketMessage smRaw smMsg u3 s1 (.bin (.ok mClose))).1 →
        s2.outputWidgetIds = s.outputWidgetIds ∧
        s2.fullHandleMessage = none ∧
        (onKernelSocketMessage smRaw smMsg u4 s2 (.bin (.ok mUpd))).2 = .ok .done ∧
        (onKernelSocketMessage smRaw smMsg u4 s2
          (.bin (.ok mUpd))).1.fullHandleMessage = none) := by
  intro s1 hs1
  have hopenO : isOutputModelOpen mOpen = true := by
    simp [isOutputModelOpen, hOpenTy, hOpenMod, hOpenName]
  have hopenU : isOutputModelOpen mUpd = false := by
    simp [isOutputModelOpen, hUpdTy]
  have hopenC : isOutputModelOpen mClose = false := by
    simp [isOutputModelOpen, hCloseTy]
  obtain ⟨hf1gate, hf1out, -, hf1res⟩ :=
    front_classifier_fields smRaw u1 s (.bin (.ok mOpen))
  obtain ⟨-, ht1out, ht1gate, -⟩ :=
    tail_open_spec smMsg u1 (onKernelSocketMessageFront smRaw u1 s (.bin (.ok mOpen)))
      mOpen hsm1 hopenO
  have hS1out : s1.outputWidgetIds = s.outputWidgetIds ++ [some X] := by
    rw [hs1, onKernelSocketMessage_bin_eq_tail, ht1out, hf1out, hOpenComm,
      setInsert_of_not_mem _ _ hFresh]
  have hS1gate : s1.fullHandleMessage = none := by
    rw [hs1, onKernelSocketMessage_bin_eq_tail, ht1gate, hf1gate, hGate]
  refine ⟨hS1out, ?_, ?_⟩
  · intro r2 hr2
    obtain ⟨hf2gate, hf2out, -, hf2res⟩ :=
      front_classifier_fields smRaw u2 s1 (.bin (.ok mUpd))
    have hclose2 : (mUpd.msgType == "comm_close" &&
        (onKernelSocketMessageFront smRaw u2 s1
          (.bin (.ok mUpd))).outputWidgetIds.contains mUpd.commId) = false := by
      simp [hUpdTy]
    have hneed2 : messageNeedsFullHandle
        (onKernelSocketMessageFront smRaw u2 s1 (.bin (.ok mUpd))).outputWidgetIds
        mUpd = true := by
      simp [messageNeedsFullHandle, hUpdCh, hUpdTy, hUpdMeth, hUpdComm, hf2out, hS1out,
        List.elem_iff]
    obtain ⟨ht2res, ht2gate, ht2out, ht2rg⟩ :=
      tail_stall_spec smMsg u2 (onKernelSocketMessageFront smRaw u2 s1 (.bin (.ok mUpd)))
        mUpd hsm2 hopenU hclose2 hneed2
    have hr2res : r2.2 = .ok (.stalled u2 mUpd.msgId) := by
      rw [hr2, onKernelSocketMessage_bin_eq_tail]; exact ht2res
    have hr2gate : r2.1.fullHandleMessage = some mUpd.msgId := by
      rw [hr2, onKernelSocketMessage_bin_eq_tail]; exact ht2gate
    refine ⟨hr2res, hr2gate, ?_, ?_, ?_⟩
    · intro other hother
      have hne : (mUpd.msgId == other) = false :=
        beq_eq_false_iff_ne.mpr (Ne.symm hother)
      simp [iopubMessageHandled, hr2gate, hne]
    · simp [iopubMessageHandled, hr2gate]
    · simp [iopubMessageHandled, hr2gate]
  · intro s2 hs2
    obtain ⟨hf3gate, hf3out, -, hf3res⟩ :=
      front_classifier_fields smRaw u3 s1 (.bin (.ok mClose))
    have hclose3 : (mClose.msgType == "comm_close" &&
        (onKernelSocketMessageFront smRaw u3 s1
          (.bin (.ok mClose))).outputWidgetIds.contains mClose.commId) = true := by
      simp [hCloseTy, hCloseComm, hf3out, hS1out, List.elem_iff]
    obtain ⟨-, ht3out, ht3gate, -⟩ :=
      tail_close_spec smMsg u3 (onKernelSocketMessageFront smRaw u3 s1 (.bin (.ok mClose)))
        mClose hsm3 hopenC hclose3
    have hS2out : s2.outputWidgetIds = s.outputWidgetIds := by
      rw [hs2, onKernelSocketMessage_bin_eq_tail, ht3out, hf3out, hS1out, hCloseComm,
        List.erase_append_right _ hFresh, List.erase_cons_head, List.append_nil]
    have hS2gate : s2.fullHandleMessage = none := by
      rw [hs2, onKernelSocketMessage_bin_eq_tail, ht3gate, hf3gate, hS1gate]
    obtain ⟨hf4gate, hf4out, -, hf4res⟩ :=
      front_classifier_fields smRaw u4 s2 (.bin (.ok mUpd))
    have hclose4 : (mUpd.msgType == "comm_close" &&
        (onKernelSocketMessageFront smRaw u4 s2
          (.bin (.ok mUpd))).outputWidgetIds.contains mUpd.commId) = false := by
      simp [hUpdTy]
    have hneed4 : messageNeedsFullHandle
        (onKernelSocketMessageFront smRaw u4 s2 (.bin (.ok mUpd))).outputWidgetIds
        mUpd = false := by
      simp [messageNeedsFullHandle, hUpdComm, hf4out, hS2out, List.elem_iff, hFresh]
    obtain ⟨ht4res, ht4gate, -, -⟩ :=
      tail_done_spec smMsg u4 (onKernelSocketMessageFront smRaw u4 s2 (.bin (.ok mUpd)))
        mUpd hsm2 hopenU hclose4 hneed4
    refine ⟨hS2out, hS2gate, ?_, ?_⟩
    · rw [onKernelSocketMessage_bin_eq_tail]; exact ht4res
    · rw [onKernelSocketMessage_bin_eq_tail, ht4gate, hf4gate, hS2gate]

/-- A `comm_open` frame for an Output-widget model on comm `X`. -/
def mOpenC4 : KernelMsg where
  channel := "iopub"
  msgType := "comm_open"
  msgId := "m-open"
  parentMsgId := ""
  commId := some "X"
  method := none
  modelModule := some "@jupyter-widgets/output"
  modelName := some "OutputModel"
  hasData := true
  hasWidgetMimeData := false
  targetName := none
  buffers := []

/-- An iopub `comm_msg` state update targeting comm `X`. -/
def mUpdC4 : KernelMsg where
  channel := "iopub"
  msgType := "comm_msg"
  msgId := "m-upd"
  parentMsgId := ""
  commId := some "X"
  method := some "update"
  modelModule := none
  modelName := none
  hasData := true
  hasWidgetMimeData := false
  targetName := none
  buffers := []

/-- A `comm_close` frame for comm `X`. -/
def mCloseC4 : KernelMsg where
  channel := "iopub"
  msgType := "comm_close"
  msgId := "m-close"
  parentMsgId := ""
  commId := some "X"
  method := none
  modelModule := none
  modelName := none
  hasData := true
  hasWidgetMimeData := false
  targetName := none
  buffers := []

/-- The dispatcher after observing the Output-widget `comm_open`. -/
def sC4open : State :=
  (onKernelSocketMessage (fun _ => true) (fun _ => true) "u1" initState
    (.bin (.ok mOpenC4))).1

/-- The processing outcome of the update frame after the open. -/
def rC4upd : State × Except Unit StepResult :=
  onKernelSocketMessage (fun _ => true) (fun _ => true) "u2" sC4open (.bin (.ok mUpdC4))

/-- The dispatcher after the open and then the close. -/
def sC4close : State :=
  (onKernelSocketMessage (fun _ => true) (fun _ => true) "u3" sC4open
    (.bin (.ok mCloseC4))).1

/-- Witness for C4 at concrete frames: the update stalls keyed by its
message id, a non-matching report leaves the gate, the matching report
clears it; after a close instead, the same update is ordinary. -/
theorem outputWidget_fullHandle_gating_witness :
    rC4upd.2 = .ok (.stalled "u2" "m-upd") ∧
    rC4upd.1.fullHandleMessage = some "m-upd" ∧
    (iopubMessageHandled rC4upd.1 "other").fullHandleMessage = some "m-upd" ∧
    (iopubMessageHandled rC4upd.1 "m-upd").fullHandleMessage = none ∧
    (iopubMessageHandled rC4upd.1 "m-upd").resolvedGates =
      rC4upd.1.resolvedGates ++ ["m-upd"] ∧
    sC4close.outputWidgetIds = initState.outputWidgetIds ∧
    (onKernelSocketMessage (fun _ => true) (fun _ => true) "u4" sC4close
      (.bin (.ok mUpdC4))).2 = .ok .done := by
  obtain ⟨h1, h2, h3⟩ :=
    outputWidget_fullHandle_gating (fun _ => true) (fun _ => true) initState
      mOpenC4 mUpdC4 mCloseC4 "X" "u1" "u2" "u3" "u4"
      rfl rfl rfl rfl rfl rfl rfl rfl rfl rfl rfl rfl rfl
      (by simp [initState]) rfl sC4open rfl
  obtain ⟨a1, a2, a3, a4, a5⟩ := h2 rC4upd rfl
  obtain ⟨b1, b2, b3, b4⟩ := h3 sC4close rfl
  exact ⟨a1, a2, a3 "other" (by decide), a4, a5, b1, b3⟩

/-! ## C5: the full-handle gate is a single slot -/

theorem tail_gate_cases (smMsg : KernelMsg → Bool) (uuid : String) (s : State)
    (md : Bool) (parsed : Except Unit KernelMsg) :
    ((∀ a g, (onKernelSocketMessageTail smMsg uuid s md parsed).2 ≠
        .ok (.stalled a g)) ∧
      (onKernelSocketMessageTail smMsg uuid s md parsed).1.fullHandleMessage =
        s.fullHandleMessage) ∨
    (∃ g, (onKernelSocketMessageTail smMsg uuid s md parsed).2 =
        .ok (.stalled uuid g) ∧
      (onKernelSocketMessageTail smMsg uuid s md parsed).1.fullHandleMessage = some g) := by
  by_cases hmd : md = true
  case neg =>
    rw [Bool.not_eq_true] at hmd
    subst hmd
    exact Or.inl ⟨fun a g => by simp [onKernelSocketMessageTail],
      by simp [onKernelSocketMessageTail]⟩
  case pos =>
    subst hmd
    cases parsed with
    | error e =>
        exact Or.inl ⟨fun a g => by simp [onKernelSocketMessageTail],
          by simp [onKernelSocketMessageTail]⟩
    | ok m =>
        by_cases hsm : smMsg m = true
        case neg =>
          rw [Bool.not_eq_true] at hsm
          exact Or.inl ⟨fun a g => by simp [onKernelSocketMessageTail, hsm],
            by simp [onKernelSocketMessageTail, hsm]⟩
        case pos =>
          by_cases hopen : isOutputModelOpen m = true
          case pos =>
            obtain ⟨h1, h2, h3, h4⟩ := tail_open_spec smMsg uuid s m hsm hopen
            exact Or.inl ⟨fun a g => by rw [h1]; simp, h3⟩
          case neg =>
            rw [Bool.not_eq_true] at hopen
            by_cases hclose : (m.msgType == "comm_close" &&
                s.outputWidgetIds.contains m.commId) = true
            case pos =>
              obtain ⟨h1, h2, h3, h4⟩ := tail_close_spec smMsg uuid s m hsm hopen hclose
              exact Or.inl ⟨fun a g => by rw [h1]; simp, h3⟩
            case neg =>
              rw [Bool.not_eq_true] at hclose
              by_cases hneed : messageNeedsFullHandle s.outputWidgetIds m = true
              case pos =>
                obtain ⟨h1, h2, h3, h4⟩ :=
                  tail_stall_spec smMsg uuid s m hsm hopen hclose hneed
                exact Or.inr ⟨m.msgId, h1, h2⟩
              case neg =>
                rw [Bool.not_eq_true] at hneed
                obtain ⟨h1, h2, h3, h4⟩ :=
                  tail_done_spec smMsg uuid s m hsm hopen hclose hneed
                exact Or.inl ⟨fun a g => by rw [h1]; simp, h2⟩

theorem onKernelSocketMessage_gate_cases (smRaw : String → Bool) (smMsg : KernelMsg → Bool)
    (uuid : String) (s : State) (data : RawData) :
    ((∀ a g, (onKernelSocketMessage smRaw smMsg uuid s data).2 ≠
        .ok (.stalled a g)) ∧
      (onKernelSocketMessage smRaw smMsg uuid s data).1.fullHandleMessage =
        s.fullHandleMessage) ∨
    (∃ g, (onKernelSocketMessage smRaw smMsg uuid s data).2 = .ok (.stalled uuid g) ∧
      (onKernelSocketMessage smRaw smMsg uuid s data).1.fullHandleMessage = some g) := by
  have hfront := (front_classifier_fields smRaw uuid s data).1
  cases data with
  | bin parsed =>
      rcases tail_gate_cases smMsg uuid (onKernelSocketMessageFront smRaw uuid s
          (.bin parsed)) true parsed with ⟨h1, h2⟩ | ⟨g, h1, h2⟩
      · exact Or.inl ⟨h1, h2.trans hfront⟩
      · exact Or.inr ⟨g, h1, h2⟩
  | str raw parsed =>
      cases parsed with
      | ok m =>
          rcases tail_gate_cases smMsg uuid (onKernelSocketMessageFront smRaw uuid s
              (.str raw (.ok m))) (mustDeserializeStr raw) (.ok m) with
            ⟨h1, h2⟩ | ⟨g, h1, h2⟩
          · exact Or.inl ⟨h1, h2.trans hfront⟩
          · exact Or.inr ⟨g, h1, h2⟩
      | error e =>
          by_cases hc : (smRaw raw && strIncludes raw "display_data") = true
          · refine Or.inl ⟨fun a g => ?_, ?_⟩
            · simp [onKernelSocketMessage, hc]
            · simpa [onKernelSocketMessage, hc] using hfront
          · rw [Bool.not_eq_true] at hc
            have heq : onKernelSocketMessage smRaw smMsg uuid s (.str raw (.error e)) =
                onKernelSocketMessageTail smMsg uuid
                  (onKernelSocketMessageFront smRaw uuid s (.str raw (.error e)))
                  (mustDeserializeStr raw) (.error e) := by
              simp [onKernelSocketMessage, hc]
            rcases tail_gate_cases smMsg uuid (onKernelSocketMessageFront smRaw uuid s
                (.str raw (.error e))) (mustDeserializeStr raw) (.error e) with
              ⟨h1, h2⟩ | ⟨g, h1, h2⟩
            · rw [heq]; exact Or.inl ⟨h1, h2.trans hfront⟩
            · rw [heq]; exact Or.inr ⟨g, h1, h2⟩

/-- The invariant of the delivery loop: when no frame is suspended the gate
slot is empty, and when a frame is suspended the gate slot is either
already cleared or holds exactly that frame's gate id. -/
def DriverInv (d : Driver) : Prop :=
  (d.stalled = none → d.disp.fullHandleMessage = none) ∧
  (∀ a g, d.stalled = some (a, g) →
    d.disp.fullHandleMessage = none ∨ d.disp.fullHandleMessage = some g)

theorem checkStallDone_preserves_inv (d : Driver) (h : DriverInv d) :
    DriverInv (checkStallDone d) := by
  obtain ⟨disp, queue, stalled⟩ := d
  cases stalled with
  | none => exact h
  | some p =>
      obtain ⟨a, g⟩ := p
      show DriverInv (if (disp.resolvedWaits.contains a &&
          disp.resolvedGates.contains g) = true
        then { disp := { disp with fullHandleMessage := none },
               queue := queue, stalled := none }
        else ⟨disp, queue, some (a, g)⟩)
      by_cases hres : (disp.resolvedWaits.contains a &&
          disp.resolvedGates.contains g) = true
      · rw [if_pos hres]
        exact ⟨fun _ => rfl, fun a' g' h' => by simp at h'⟩
      · rw [if_neg hres]
        exact h

theorem onKernelSocketResponse_gate (s : State) (id : String) :
    (onKernelSocketResponse s id).fullHandleMessage = s.fullHandleMessage := by
  unfold onKernelSocketResponse
  split <;> rfl

theorem iopubMessageHandled_gate (s : State) (id : String) :
    (iopubMessageHandled s id).fullHandleMessage = s.fullHandleMessage ∨
    (iopubMessageHandled s id).fullHandleMessage = none := by
  cases hg : s.fullHandleMessage with
  | none => simp [iopubMessageHandled, hg]
  | some gid =>
      by_cases he : (gid == id) = true <;> simp [iopubMessageHandled, hg, he]

theorem driverStep_preserves_inv (smRaw : String → Bool) (smMsg : KernelMsg → Bool)
    (d : Driver) (e : DEvent) (h : DriverInv d) :
    DriverInv (driverStep smRaw smMsg d e) := by
  cases e with
  | deliverNext =>
      cases hst : d.stalled with
      | some p => simpa [driverStep, hst] using h
      | none =>
          cases hq : d.queue with
          | nil => simpa [driverStep, hst, hq] using h
          | cons f rest =>
              obtain ⟨uuid, data⟩ := f
              have hgate0 : d.disp.fullHandleMessage = none := h.1 hst
              rcases onKernelSocketMessage_gate_cases smRaw smMsg uuid d.disp data with
                ⟨h1, h2⟩ | ⟨g, h1, h2⟩
              · have hstep : driverStep smRaw smMsg d .deliverNext =
                    { disp := (onKernelSocketMessage smRaw smMsg uuid d.disp data).1,
                      queue := rest, stalled := none } := by
                  simp only [driverStep, hst, hq]
                rw [hstep]
                exact ⟨fun _ => h2.trans hgate0, fun a g hsome => by simp at hsome⟩
              · have hstep : driverStep smRaw smMsg d .deliverNext =
                    { disp := (onKernelSocketMessage smRaw smMsg uuid d.disp data).1,
                      queue := rest, stalled := some (uuid, g) } := by
                  simp only [driverStep, hst, hq, h1]
                rw [hstep]
                refine ⟨fun hno => by simp at hno, fun a' g' hsome => ?_⟩
                have ha : a' = uuid ∧ g' = g := by
                  simpa [eq_comm, And.comm] using hsome
                right
                rw [ha.2]
                exact h2
  | ack id =>
      apply checkStallDone_preserves_inv
      have hgate := onKernelSocketResponse_gate d.disp id
      exact ⟨fun hno => hgate.trans (h.1 hno),
        fun a g hsome => by
          rcases h.2 a g hsome with hh | hh
          · exact Or.inl (hgate.trans hh)
          · exact Or.inr (hgate.trans hh)⟩
  | handled id =>
      apply checkStallDone_preserves_inv
      rcases iopubMessageHandled_gate d.disp id with hgate | hgate
      · exact ⟨fun hno => hgate.trans (h.1 hno),
          fun a g hsome => by
            rcases h.2 a g hsome with hh | hh
            · exact Or.inl (hgate.trans hh)
            · exact Or.inr (hgate.trans hh)⟩
      · exact ⟨fun _ => hgate, fun a g _ => Or.inl hgate⟩

theorem driverRun_inv (smRaw : String → Bool) (smMsg : KernelMsg → Bool)
    (frames : List (String × RawData)) (tr : List DEvent) :
    DriverInv (driverRun smRaw smMsg frames tr) := by
  have hgen : ∀ (t : List DEvent) (d : Driver), DriverInv d →
      DriverInv (t.foldl (driverStep smRaw smMsg) d) := by
    intro t
    induction t with
    | nil => exact fun d h => h
    | cons e rest ih =>
        intro d h
        exact ih _ (driverStep_preserves_inv smRaw smMsg d e h)
  exact hgen tr ⟨initState, frames, none⟩ ⟨fun _ => rfl, fun a g hh => by simp at hh⟩

/-- C5 (spec-modelled delivery loop, §2/§5): the full-handle gate is a
single `Option` slot (`fullHandleMessage`), so at most one gate entry is
outstanding at any time; along every delivery-loop run, (1) whenever no
frame is suspended the slot is empty — hence a gate only ever opens from a
cleared slot, never overwriting an open gate; (2) the open slot, if any,
holds exactly the suspended frame's gate id; and (3) while a gate's frame
is outstanding, delivering the next frame is a no-op — a second message
requiring full-handle synchronization waits for the first gate to clear
before its own gate can open. -/
theorem fullHandleGate_single_slot (smRaw : String → Bool) (smMsg : KernelMsg → Bool)
    (frames : List (String × RawData)) (tr : List DEvent) :
    ((driverRun smRaw smMsg frames tr).stalled = none →
      (driverRun smRaw smMsg frames tr).disp.fullHandleMessage = none) ∧
    (∀ a g, (driverRun smRaw smMsg frames tr).stalled = some (a, g) →
      (driverRun smRaw smMsg frames tr).disp.fullHandleMessage = none ∨
        (driverRun smRaw smMsg frames tr).disp.fullHandleMessage = some g) ∧
    ((driverRun smRaw smMsg frames tr).stalled.isSome = true →
      driverStep smRaw smMsg (driverRun smRaw smMsg frames tr) .deliverNext =
        driverRun smRaw smMsg frames tr) := by
  obtain ⟨h1, h2⟩ := driverRun_inv smRaw smMsg frames tr
  refine ⟨h1, h2, ?_⟩
  intro hsome
  cases hst : (driverRun smRaw smMsg frames tr).stalled with
  | none => rw [hst] at hsome; simp at hsome
  | some p => simp [driverStep, hst]

/-- A frame queue: an Output-widget open, then two updates for it. -/
def framesC5 : List (String × RawData) :=
  [("u1", .bin (.ok mOpenC4)), ("u2", .bin (.ok mUpdC4)), ("u3", .bin (.ok mUpdC4))]

/-- The delivery loop after delivering the open and the first update. -/
def dC5 : Driver :=
  driverRun (fun _ => true) (fun _ => true) framesC5 [.deliverNext, .deliverNext]

/-- Witness for C5: with a gate open for the first update, the slot holds
that update's id and delivering the queued second update is a no-op. -/
theorem fullHandleGate_single_slot_witness :
    (dC5.stalled = some ("u2", "m-upd")) ∧
    (dC5.disp.fullHandleMessage = none ∨ dC5.disp.fullHandleMessage = some "m-upd") ∧
    (driverStep (fun _ => true) (fun _ => true) dC5 .deliverNext = dC5) :=
  ⟨by decide,
    (fullHandleGate_single_slot (fun _ => true) (fun _ => true) framesC5
      [.deliverNext, .deliverNext]).2.1 "u2" "m-upd" (by decide),
    (fullHandleGate_single_slot (fun _ => true) (fun _ => true) framesC5
      [.deliverNext, .deliverNext]).2.2 (by decide)⟩

/-! ## C10: the sticky widget-usage flag is monotone -/

theorem tail_flag_mono (smMsg : KernelMsg → Bool) (uuid : String) (s : State)
    (md : Bool) (parsed : Except Unit KernelMsg) (h : s.isUsingIPyWidgets = true) :
    (onKernelSocketMessageTail smMsg uuid s md parsed).1.isUsingIPyWidgets = true := by
  by_cases hmd : md = true
  case neg =>
    rw [Bool.not_eq_true] at hmd
    subst hmd
    simpa [onKernelSocketMessageTail] using h
  case pos =>
    subst hmd
    cases parsed with
    | error e => simpa [onKernelSocketMessageTail] using h
    | ok m =>
        by_cases hsm : smMsg m = true
        case neg =>
          rw [Bool.not_eq_true] at hsm
          simpa [onKernelSocketMessageTail, hsm] using h
        case pos =>
          by_cases hw : widgetHint m = true <;>
            by_cases ho : isOutputModelOpen m = true <;>
              by_cases hc : (m.msgType == "comm_close" &&
                s.outputWidgetIds.contains m.commId) = true <;>
                by_cases hn : messageNeedsFullHandle s.outputWidgetIds m = true <;>
                  simp [onKernelSocketMessageTail, hsm, hw, ho, hc, hn, h] <;>
                    (try (split <;> simp [h]))

theorem onKernelSocketMessage_flag_mono (smRaw : String → Bool) (smMsg : KernelMsg → Bool)
    (uuid : String) (s : State) (data : RawData) (h : s.isUsingIPyWidgets = true) :
    (onKernelSocketMessage smRaw smMsg uuid s data).1.isUsingIPyWidgets = true := by
  have hf := (front_classifier_fields smRaw uuid s data).2.2.1
  cases data with
  | bin parsed =>
      exact tail_flag_mono smMsg uuid _ true parsed (hf.trans h)
  | str raw parsed =>
      cases parsed with
      | ok m => exact tail_flag_mono smMsg uuid _ _ _ (hf.trans h)
      | error e =>
          by_cases hc : (smRaw raw && strIncludes raw "display_data") = true
          · have heq : onKernelSocketMessage smRaw smMsg uuid s (.str raw (.error e)) =
                (onKernelSocketMessageFront smRaw uuid s (.str raw (.error e)),
                  .error ()) := by
              simp [onKernelSocketMessage, hc]
            rw [heq]
            exact hf.trans h
          · rw [Bool.not_eq_true] at hc
            have heq : onKernelSocketMessage smRaw smMsg uuid s (.str raw (.error e)) =
                onKernelSocketMessageTail smMsg uuid
                  (onKernelSocketMessageFront smRaw uuid s (.str raw (.error e)))
                  (mustDeserializeStr raw) (.error e) := by
              simp [onKernelSocketMessage, hc]
            rw [heq]
            exact tail_flag_mono smMsg uuid _ _ _ (hf.trans h)

theorem removeMessageHook_flag (hasKernel : Bool) (s : State) (msgId : String) :
    (removeMessageHook hasKernel s msgId).isUsingIPyWidgets = s.isUsingIPyWidgets := by
  unfold removeMessageHook
  split <;> rfl

theorem mirrorSend_flag (smMsg : KernelMsg → Bool) (s : State) (data : RawData) :
    (mirrorSend smMsg s data).1.isUsingIPyWidgets = s.isUsingIPyWidgets := by
  unfold mirrorSend
  cases data <;> (repeat' split) <;> simp

theorem sendPendingMessages_flag (hasKernel : Bool) (sendOk : Nat → KernelMsg → Bool)
    (s : State) :
    (sendPendingMessages hasKernel sendOk s).isUsingIPyWidgets = s.isUsingIPyWidgets := by
  unfold sendPendingMessages
  split <;> rfl

theorem subscribeToKernelSocketImpl_flag (hasSocket : Bool) (kt : List String)
    (sendOk : Nat → KernelMsg → Bool) (s : State) :
    (subscribeToKernelSocketImpl hasSocket kt sendOk s).isUsingIPyWidgets =
      s.isUsingIPyWidgets := by
  unfold subscribeToKernelSocketImpl sendPendingMessages registerCommTargets
  (repeat' split) <;> rfl

theorem applyEvent_flag_mono (s : State) (e : Event) (h : s.isUsingIPyWidgets = true) :
    (applyEvent s e).isUsingIPyWidgets = true := by
  cases e with
  | inbound smRaw smMsg uuid data =>
      exact onKernelSocketMessage_flag_mono smRaw smMsg uuid s data h
  | outboundHook smMsg data => exact (mirrorSend_flag smMsg s data).trans h
  | ack id =>
      show (onKernelSocketResponse s id).isUsingIPyWidgets = true
      unfold onKernelSocketResponse
      split <;> exact h
  | handled id =>
      show (iopubMessageHandled s id).isUsingIPyWidgets = true
      unfold iopubMessageHandled
      (repeat' split) <;> exact h
  | socketChange hasSocket kt sendOk =>
      exact (subscribeToKernelSocketImpl_flag hasSocket kt sendOk s).trans h
  | rawSend hasKernel sendOk payload =>
      show (sendRawPayloadToKernelSocket hasKernel sendOk s payload).isUsingIPyWidgets = true
      unfold sendRawPayloadToKernelSocket
      exact (sendPendingMessages_flag hasKernel sendOk _).trans h
  | commTargetReq hasKernel kt name =>
      show (registerCommTarget hasKernel kt s name).isUsingIPyWidgets = true
      unfold registerCommTarget registerCommTargets
      split <;> exact h
  | regHook hasKernel id =>
      show (registerMessageHook hasKernel s id).isUsingIPyWidgets = true
      unfold registerMessageHook
      split <;> exact h
  | removeHookReq hasKernel hookId lastId =>
      show (possiblyRemoveMessageHook hasKernel s hookId lastId).isUsingIPyWidgets = true
      unfold possiblyRemoveMessageHook removeMessageHook
      (repeat' split) <;> exact h
  | hookCb hasKernel requestId m =>
      show (messageHookCallback hasKernel s requestId m).isUsingIPyWidgets = true
      unfold messageHookCallback
      (repeat' (first | split | simp only [])) <;> (try rw [removeMessageHook_flag]) <;>
        exact h
  | hookResponse requestId msgType result =>
      show (handleMessageHookResponse s requestId msgType result).isUsingIPyWidgets = true
      unfold handleMessageHookResponse
      split <;> exact h
  | kernelRestarted hasSession kt =>
      show (handleKernelRestarts hasSession kt s).isUsingIPyWidgets = true
      unfold handleKernelRestarts registerCommTargets
      split <;> exact h
  | disposeEvent => exact h

/-- C10: the sticky `isUsingIPyWidgets` flag is monotone — once true it
stays true across every modelled dispatcher reaction (no reaction ever
writes `false` to it); in particular a kernel restart
(`subscribeToKernelSocketImpl`, which does clear the pending queue, the
waiting messages and the hooks) leaves it set, so after any event trace —
restarts included — the send hook for an accepted shell `execute_request`
still awaits the render surface's acknowledgment. -/
theorem isUsingIPyWidgets_monotone (s : State) (tr : List Event)
    (h : s.isUsingIPyWidgets = true) :
    (applyTrace s tr).isUsingIPyWidgets = true ∧
    (∀ hasSocket kt sendOk,
      (subscribeToKernelSocketImpl hasSocket kt sendOk
        (applyTrace s tr)).isUsingIPyWidgets = true) ∧
    (∀ smMsg raw (m : KernelMsg),
      strIncludes raw "shell" = true → strIncludes raw "execute_request" = true →
      m.channel = "shell" → m.msgType = "execute_request" → smMsg m = true →
      (mirrorSend smMsg (applyTrace s tr) (.str raw (.ok m))).2 = .ok (some m.msgId)) := by
  have hmono : (applyTrace s tr).isUsingIPyWidgets = true := by
    unfold applyTrace
    have hgen : ∀ (t : List Event) (s0 : State), s0.isUsingIPyWidgets = true →
        (t.foldl applyEvent s0).isUsingIPyWidgets = true := by
      intro t
      induction t with
      | nil => exact fun s0 h0 => h0
      | cons e rest ih => exact fun s0 h0 => ih _ (applyEvent_flag_mono s0 e h0)
    exact hgen tr s h
  refine ⟨hmono, ?_, ?_⟩
  · intro hasSocket kt sendOk
    exact (subscribeToKernelSocketImpl_flag hasSocket kt sendOk _).trans hmono
  · intro smMsg raw m hsh her hch hty hsm
    simp [mirrorSend, hsh, her, hch, hty, hsm, hmono]

/-- A trace: widget usage observed, then a restart, then a queued send. -/
def trC10 : List Event :=
  [.socketChange true [] (fun _ _ => true),
   .rawSend true (fun _ _ => true) (.str "payload" (.ok execMsgM1)),
   .disposeEvent]

/-- Witness for C10: starting from a state with the flag set, after the
trace (a socket change, a raw send, a disposal) the flag is still set and
a mirrored execute request still waits. -/
theorem isUsingIPyWidgets_monotone_witness :
    sC7.isUsingIPyWidgets = true ∧
    ((applyTrace sC7 trC10).isUsingIPyWidgets = true ∧
      (∀ hasSocket kt sendOk,
        (subscribeToKernelSocketImpl hasSocket kt sendOk
          (applyTrace sC7 trC10)).isUsingIPyWidgets = true) ∧
      (∀ smMsg raw (m : KernelMsg),
        strIncludes raw "shell" = true → strIncludes raw "execute_request" = true →
        m.channel = "shell" → m.msgType = "execute_request" → smMsg m = true →
        (mirrorSend smMsg (applyTrace sC7 trC10) (.str raw (.ok m))).2 =
          .ok (some m.msgId))) :=
  ⟨rfl, isUsingIPyWidgets_monotone sC7 trC10 rfl⟩

end IPyWidgetMessageDispatcher
